import Mathlib

/-!
Verification development for the step-wise tool-using agent repository
(core/loop.py, core/session.py, modules/action.py).

The Python sources are shallowly embedded as executable Lean definitions:
pure functions become Lean functions, the mutable loop state becomes an
explicit record threaded through a step function, exceptions become
`Except`/`Option` results, and the external collaborators (LLM perception
extractor, LLM planner, MCP tool backends) become an environment of
step-indexed oracles, exactly one of each being consulted per loop
iteration, as in the source.

Modelled from the spec (the files core/context.py, core/strategy.py and
modules/memory.py are not part of the source tree; only their call sites
are): `AgentContext` is a session record holding the user input, a step
index, an append-only memory trace, a nullable final answer and a
`max_steps` profile; `MemoryItem` is a write-once record with text, type,
tool name, originating query, tags and session id; `decide_next_action`
is the external planner returning one line of text.  These are folded
into `LoopState`/`MemoryItem`/`Env.plan` below.

Embedding conventions:
* Python truthiness of the `str`-valued fields (`_created_sheet_id`,
  `_created_sheet_url`, `_pending_sheet_link`, `final_answer`) is modelled
  with the empty string as the falsy value; every assignment in the source
  stores a non-empty string, so `None` and `""` are indistinguishable at
  every use site.
* Python dicts are association lists with insertion order and
  replace-in-place update, matching CPython semantics; `set(...)` joins
  are modelled with first-occurrence-order deduplication.
* `json.loads` at the loop/verify call sites is embedded for the JSON
  value shape those sites actually consume and that the transport emits
  (a flat object with string values, produced by `json.dumps` of such an
  object on the server side), plus the failure case for everything else.
* String primitives (split/strip/lower/startswith/int) are re-implemented
  over character lists so that all definitions evaluate inside the kernel.
* Logging, printing and timing calls are I/O no-ops and are omitted.
-/

/-! ### Python string primitives over character lists -/

/-- The single-quote character (written via its code point to keep the
embedding free of quote-literal noise). -/
def squote : Char := Char.ofNat 39

/-- The double-quote character. -/
def dquote : Char := Char.ofNat 34

/-- The backslash character. -/
def bslash : Char := Char.ofNat 92

/-- An opening curly brace as a one-character string. -/
def obrace : String := "\x7b"

/-- A closing curly brace as a one-character string. -/
def cbrace : String := "\x7d"

/-- Python `str.strip` whitespace set (space, tab, newline, carriage
return, form feed, vertical tab). -/
def pyIsSpace (c : Char) : Bool :=
  c = ' ' ∨ c = Char.ofNat 9 ∨ c = Char.ofNat 10 ∨ c = Char.ofNat 13 ∨
    c = Char.ofNat 12 ∨ c = Char.ofNat 11

/-- Python `s.strip()` on a string. -/
def pyStrip (s : String) : String :=
  String.mk (((s.data.dropWhile pyIsSpace).reverse.dropWhile pyIsSpace).reverse)

/-- Python `s.lower()` (ASCII case mapping, the only case the source
exercises). -/
def pyLower (s : String) : String :=
  String.mk (s.data.map Char.toLower)

/-- Python `s.upper()`. -/
def pyUpper (s : String) : String :=
  String.mk (s.data.map Char.toUpper)

/-- Python `s.startswith(p)`. -/
def pyStartsWith (s p : String) : Bool :=
  p.data.isPrefixOf s.data

/-- Python `s.split(sep)` for a one-character separator (the source only
splits on `"|"`, `"."` and line breaks). -/
def splitChar (sep : Char) (l : List Char) : List (List Char) :=
  match l with
  | [] => [[]]
  | c :: rest =>
    let r := splitChar sep rest
    if c = sep then [] :: r
    else
      match r with
      | [] => [[c]]
      | piece :: more => (c :: piece) :: more

/-- Python `s.split(sep)` on strings. -/
def pySplit (sep : Char) (s : String) : List String :=
  (splitChar sep s.data).map String.mk

/-- Python `needle in haystack` on lists of characters. -/
def hasInfix (needle : List Char) : List Char → Bool
  | [] => needle.isEmpty
  | c :: rest => needle.isPrefixOf (c :: rest) || hasInfix needle rest

/-- Python `needle in haystack` for strings. -/
def containsSub (needle hay : String) : Bool :=
  hasInfix needle.data hay.data

/-- Python `s[:n]` (also `str(x)[:n]`). -/
def pyTake (n : Nat) (s : String) : String :=
  String.mk (s.data.take n)

/-- Decimal digits of a character-list integer literal. -/
def digitsToNat (acc : Nat) : List Char → Nat
  | [] => acc
  | c :: rest => digitsToNat (acc * 10 + (c.toNat - 48)) rest

/-- Python integer-literal parse, the integer case of `ast.literal_eval`
(modules/action.py line 73): an optional sign, then decimal digits, with
multi-digit literals not starting in `0` (CPython rejects `05`). -/
def pyIntLit (s : String) : Option Int :=
  let l := s.data
  let (neg, ds) :=
    match l with
    | c :: rest => if c = '-' then (true, rest) else if c = '+' then (false, rest) else (false, l)
    | [] => (false, l)
  if ds.isEmpty then none
  else if ¬ ds.all Char.isDigit then none
  else if ds.length ≥ 2 ∧ ds.head? = some '0' ∧ ¬ ds.all (· = '0') then none
  else
    let n : Int := Int.ofNat (digitsToNat 0 ds)
    some (if neg then -n else n)

/-- Association-list lookup (Python `d.get(k)` / `k in d`). -/
def aGet {α : Type} (k : String) : List (String × α) → Option α
  | [] => none
  | (k2, v) :: rest => if k2 = k then some v else aGet k rest

/-- Association-list update with CPython dict semantics: an existing key
is overwritten in place, a new key is appended at the end. -/
def aSet {α : Type} (k : String) (v : α) : List (String × α) → List (String × α)
  | [] => [(k, v)]
  | (k2, v2) :: rest => if k2 = k then (k, v) :: rest else (k2, v2) :: aSet k v rest

/-- First-occurrence-order deduplication, auxiliary. -/
def dedupFirstAux : List String → List String → List String
  | [], _ => []
  | x :: rest, seen =>
    if seen.contains x then dedupFirstAux rest seen
    else x :: dedupFirstAux rest (x :: seen)

/-- First-occurrence-order deduplication, used to model iteration over a
CPython `set(...)` built from a list (the source only joins such sets
into display strings). -/
def dedupFirst (l : List String) : List String :=
  dedupFirstAux l []

/-- Separator join (Python `sep.join(xs)`). -/
def joinSep (sep : String) : List String → String
  | [] => ""
  | [x] => x
  | x :: y :: rest => x ++ sep ++ joinSep sep (y :: rest)

/-- Python `", ".join(xs)`. -/
def joinComma (xs : List String) : String :=
  joinSep ", " xs

/-! ### modules/action.py -/

/-- The values produced by the parameter-value decoding chain of
`parse_function_call` (ast.literal_eval, then json.loads, then the raw
string with symmetric outer-quote stripping), plus the nested maps built
by dotted keys.  The embedded literal grammar covers integers, booleans,
None/null, quoted strings, and lists and string-keyed dicts of these;
literal forms outside this subgrammar (floats, tuples, escapes, ...)
fall through to the raw-string case, and the C6 theorem confines itself
to the subgrammar through its `litOk` hypothesis. -/
inductive Value : Type
  | vint (n : Int)
  | vbool (b : Bool)
  | vnone
  | vstr (s : String)
  | vlist (elems : List Value)
  | vdict (entries : List (String × Value))

/-- Arguments dictionary produced by the parser. -/
abbrev Args := List (String × Value)

/-- Whether a value is a Python dict. -/
def Value.isDict : Value → Bool
  | .vdict _ => true
  | _ => false

/-- Quote-aware scan of `parse_function_call` (modules/action.py lines
45-62): find the index of the first `=` that is not inside an open
quoted span, where a quote preceded by a backslash neither opens nor
closes a span. -/
def findEqAux : List Char → Nat → Option Char → Option Char → Option Nat
  | [], _, _, _ => none
  | c :: rest, i, prev, qc =>
    if (c = dquote ∨ c = squote) ∧ (i = 0 ∨ prev ≠ some bslash) then
      match qc with
      | none => findEqAux rest (i + 1) (some c) (some c)
      | some q =>
        if c = q then findEqAux rest (i + 1) (some c) none
        else findEqAux rest (i + 1) (some c) (some q)
    else if c = '=' ∧ qc = none then some i
    else findEqAux rest (i + 1) (some c) qc

/-- Position of the unquoted key/value separator in a parameter segment. -/
def findEqPos (part : String) : Option Nat :=
  findEqAux part.data 0 none none

/-- Symmetric outer-quote stripping (modules/action.py lines 81-83). -/
def stripOuterQuotes (v : String) : String :=
  if v.data.length ≥ 2 ∧ v.data.head? = v.data.getLast? ∧
      (v.data.head? = some dquote ∨ v.data.head? = some squote) then
    String.mk (v.data.drop 1 |>.dropLast)
  else v

/-- An opening curly brace as a character. -/
def obraceC : Char := Char.ofNat 123

/-- A closing curly brace as a character. -/
def cbraceC : Char := Char.ofNat 125

/-- Skip the whitespace the literal parsers skip between tokens. -/
def skipWs (l : List Char) : List Char :=
  l.dropWhile pyIsSpace

/-- Integer token of the literal subgrammar: an optional sign and
decimal digits, with multi-digit leading zeros rejected as CPython
does. -/
def litInt (l : List Char) : Option (Int × List Char) :=
  let sl :=
    match l with
    | c :: rest => if c = '-' then (true, rest) else if c = '+' then (false, rest) else (false, l)
    | [] => (false, l)
  let ds := sl.2.takeWhile Char.isDigit
  let rest := sl.2.dropWhile Char.isDigit
  if ds.isEmpty then none
  else if ds.length ≥ 2 ∧ ds.head? = some '0' then none
  else
    let n : Int := Int.ofNat (digitsToNat 0 ds)
    some (if sl.1 then -n else n, rest)

/-- String token of the literal subgrammar: a quoted span with neither a
backslash nor the active quote inside (escape forms fall outside the
subgrammar and down to the raw-string case). -/
def litStr (l : List Char) : Option (String × List Char) :=
  match l with
  | [] => none
  | q :: rest =>
    if q = squote ∨ q = dquote then
      let body := rest.takeWhile (fun c => ¬ (c = q ∨ c = bslash))
      match rest.dropWhile (fun c => ¬ (c = q ∨ c = bslash)) with
      | c :: r2 => if c = q then some (String.mk body, r2) else none
      | [] => none
    else none

/-- Parse positions of the embedded literal grammar: a value, the
remaining items of a list, or the remaining entries of a dict. -/
inductive LitMode : Type
  | val
  | items (acc : List Value)
  | entries (acc : List (String × Value))

/-- Fuel-bounded recursive-descent parser for the embedded literal
subgrammar shared by `ast.literal_eval` and `json.loads` on the inputs
the agent exchanges: integers, quoted strings, True/False/None and
true/false/null, lists, and string-keyed dicts, with whitespace between
tokens and later duplicate dict keys winning as in CPython.  Every
string this parser accepts is decoded to the same value by the source's
two-stage chain; what it rejects falls to the raw-string case. -/
def pyLitGo : Nat → LitMode → List Char → Option (Value × List Char)
  | 0, _, _ => none
  | Nat.succ fuel, .val, l =>
    match skipWs l with
    | [] => none
    | c :: rest =>
      if c = '[' then
        match skipWs rest with
        | c2 :: r2 =>
          if c2 = ']' then some (.vlist [], r2)
          else pyLitGo fuel (.items []) (c2 :: r2)
        | [] => none
      else if c = obraceC then
        match skipWs rest with
        | c2 :: r2 =>
          if c2 = cbraceC then some (.vdict [], r2)
          else pyLitGo fuel (.entries []) (c2 :: r2)
        | [] => none
      else if c = squote ∨ c = dquote then
        match litStr (c :: rest) with
        | some sr => some (.vstr sr.1, sr.2)
        | none => none
      else if "True".data.isPrefixOf (c :: rest) then some (.vbool true, rest.drop 3)
      else if "true".data.isPrefixOf (c :: rest) then some (.vbool true, rest.drop 3)
      else if "False".data.isPrefixOf (c :: rest) then some (.vbool false, rest.drop 4)
      else if "false".data.isPrefixOf (c :: rest) then some (.vbool false, rest.drop 4)
      else if "None".data.isPrefixOf (c :: rest) then some (.vnone, rest.drop 3)
      else if "null".data.isPrefixOf (c :: rest) then some (.vnone, rest.drop 3)
      else
        match litInt (c :: rest) with
        | some nr => some (.vint nr.1, nr.2)
        | none => none
  | Nat.succ fuel, .items acc, l =>
    match pyLitGo fuel .val l with
    | none => none
    | some vr =>
      match skipWs vr.2 with
      | c :: r2 =>
        if c = ',' then pyLitGo fuel (.items (acc ++ [vr.1])) r2
        else if c = ']' then some (.vlist (acc ++ [vr.1]), r2)
        else none
      | [] => none
  | Nat.succ fuel, .entries acc, l =>
    match litStr (skipWs l) with
    | none => none
    | some kr =>
      match skipWs kr.2 with
      | c :: r2 =>
        if c = ':' then
          match pyLitGo fuel .val r2 with
          | none => none
          | some vr =>
            match skipWs vr.2 with
            | c2 :: r4 =>
              if c2 = ',' then pyLitGo fuel (.entries (aSet kr.1 vr.1 acc)) r4
              else if c2 = cbraceC then some (.vdict (aSet kr.1 vr.1 acc), r4)
              else none
            | [] => none
        else none
      | [] => none

/-- Full-string literal parse (modules/action.py lines 71-79): the
embedded subgrammar, required to consume the entire value. -/
def pyLit (s : String) : Option Value :=
  match pyLitGo (3 * s.data.length + 3) .val s.data with
  | some vr => if skipWs vr.2 = [] then some vr.1 else none
  | none => none

/-- Whether a parameter value stays inside the embedded literal
subgrammar whenever the real decoding chain could produce a composite:
a value opening with a bracket, brace or parenthesis (the only openers
from which ast.literal_eval / json.loads build lists, dicts, sets or
parenthesised literals) must be parsed by the embedded grammar.  The C6
success theorem assumes this of every segment, confining it to inputs
on which the embedding and the source decode alike. -/
def litOk (val : String) : Bool :=
  match val.data with
  | [] => true
  | c :: _ =>
    if c = '[' ∨ c = obraceC ∨ c = '(' then (pyLit val).isSome
    else true

/-- Value decoding chain (modules/action.py lines 69-83): Python/JSON
literal parse over the embedded subgrammar, then the raw string with
symmetric outer-quote stripping.  Both real parses are total at the use
site because every failure falls through to the raw-string case. -/
def parseValue (val : String) : Value :=
  match pyLit val with
  | some v => v
  | none => .vstr (stripOuterQuotes val)

/-- Nested-key assignment (modules/action.py lines 86-90): walk
`keys[:-1]` with `setdefault(k, {})` and assign the last key.  Returns
`none` when the walk or the final assignment hits an existing non-dict
value (Python raises `AttributeError`/`TypeError` there, which escapes
`parse_function_call`). -/
def setPath : List String → Value → Args → Option Args
  | [], _, _ => none
  | [k], v, d => some (aSet k v d)
  | k :: k2 :: ks, v, d =>
    match aGet k d with
    | none => (setPath (k2 :: ks) v []).map (fun inner => aSet k (.vdict inner) d)
    | some (.vdict inner) =>
      (setPath (k2 :: ks) v inner).map (fun inner2 => aSet k (.vdict inner2) d)
    | some _ => none

/-- Fold of the parameter-segment loop of `parse_function_call`
(modules/action.py lines 39-90). -/
def buildArgs : List String → Args → Except String Args
  | [], args => .ok args
  | part :: rest, args =>
    if ¬ containsSub "=" part then .error ("Invalid parameter: " ++ part)
    else
      match findEqPos part with
      | none => .error ("Invalid parameter format (no = found): " ++ part)
      | some i =>
        let key := pyStrip (String.mk (part.data.take i))
        let val := pyStrip (String.mk (part.data.drop (i + 1)))
        match setPath (pySplit '.' key) (parseValue val) args with
        | none => .error "TypeError: item assignment on a non-dict value"
        | some args2 => buildArgs rest args2

/-- Whether formatting the first data row in the add_data_to_sheet
debug-logging block (modules/action.py line 97) succeeds: `len(data[0])`
needs a sized value, and the slice `data[0][:3]` — evaluated when that
length exceeds 3 — raises on a dict. -/
def previewOk : Value → Bool
  | .vstr _ => true
  | .vlist _ => true
  | .vdict m => decide (m.length ≤ 3)
  | _ => false

/-- Whether the add_data_to_sheet debug-logging block (modules/action.py
lines 96-97) tolerates this `data` value: anything but a non-empty list
passes the isinstance/length guard untouched, and a non-empty list needs
a previewable first row. -/
def dataSafe : Value → Bool
  | .vlist (e :: _) => previewOk e
  | _ => true

/-- parse_function_call (modules/action.py lines 24-105).  Splits
`"FUNCTION_CALL: name|k1=v1|..."` into a tool name and a nested argument
dictionary; any exception raised inside is logged and re-raised, embedded
as `Except.error`.  The final branch embeds the debug-logging block of
lines 93-97, which for `add_data_to_sheet` dereferences
`args["input"].get("data")` — raising when `input` holds a non-dict
value — and previews the first data row, raising when `data` is a
non-empty list whose first element has no usable length. -/
def parse_function_call (response : String) :
    Except String (String × Args) :=
  if ¬ pyStartsWith response "FUNCTION_CALL:" then
    .error "Invalid function call format."
  else
    let raw := String.mk (response.data.drop 14)
    let parts := (pySplit '|' raw).map pyStrip
    let toolName := parts.headD ""
    match buildArgs parts.tail [] with
    | .error e => .error e
    | .ok args =>
      if toolName = "add_data_to_sheet" then
        match aGet "input" args with
        | none => .ok (toolName, args)
        | some (.vdict inner) =>
          match aGet "data" inner with
          | some w =>
            if dataSafe w then .ok (toolName, args)
            else .error "TypeError: first data row has no usable length"
          | none => .ok (toolName, args)
        | some _ => .error "AttributeError: object has no attribute get"
      else .ok (toolName, args)

example :
    parse_function_call "FUNCTION_CALL: add|a=5|b=7" =
      .ok ("add", [("a", .vint 5), ("b", .vint 7)]) := rfl

example :
    parse_function_call "FUNCTION_CALL: t|msg=\"x=y\"" =
      .ok ("t", [("msg", .vstr "x=y")]) := rfl

/-! ### core/session.py — MultiMCP -/

/-- One configured MCP backend (core/session.py `server_configs`
entries).  `script` stands for the identifying configuration payload
(script path / base url); `disc` is the outcome of the external
discovery exchange against that backend during `initialize` — either the
advertised tool names or a raised error (timeout, handshake failure,
malformed tool list).  Both the stdio and the SSE transport wrap
discovery in a per-backend try/except, so one `Except` outcome per
backend captures either transport. -/
structure MBackend where
  script : String
  disc : Except String (List String)

/-- Processing of one configured backend during `MultiMCP.initialize`:
a backend whose discovery raises is caught by the per-backend `except`
and contributes nothing; each advertised tool name is bound to its
backend, last-write-wins. -/
def mcpStep (m : List (String × String)) (b : MBackend) : List (String × String) :=
  match b.disc with
  | .error _ => m
  | .ok names => names.foldl (fun m2 n => aSet n b.script m2) m

/-- The `tool_map` built by `MultiMCP.initialize` (core/session.py lines
154-215): scan every configured backend in order. -/
def mcpInitializeMap (bs : List MBackend) : List (String × String) :=
  bs.foldl mcpStep []

/-- `MultiMCP.call_tool` (core/session.py lines 217-244) up to the
transport exchange: look up the bound backend, raising when the tool is
unregistered; the actual invocation is then dispatched to that backend's
transport. -/
def mcpLookup (toolMap : List (String × String)) (toolName : String) :
    Except String String :=
  match aGet toolName toolMap with
  | none => .error ("Tool '" ++ toolName ++ "' not found on any server.")
  | some script => .ok script

example :
    mcpInitializeMap
      [⟨"a.py", .ok ["search"]⟩, ⟨"b.py", .error "timeout"⟩, ⟨"c.py", .ok ["send"]⟩] =
      [("search", "a.py"), ("send", "c.py")] := rfl

/-! ### core/loop.py — data model -/

/-- Decimal digits of a natural number (auxiliary, fuel = number itself). -/
def natDigits : Nat → Nat → List Char
  | 0, _ => []
  | fuel + 1, n =>
    if n < 10 then [Char.ofNat (48 + n)]
    else natDigits fuel (n / 10) ++ [Char.ofNat (48 + n % 10)]

/-- Python `str(n)` for a natural number. -/
def natRepr (n : Nat) : String :=
  String.mk (natDigits (n + 1) n)

/-- Python `str(n)` / `repr(n)` for an integer. -/
def intRepr (n : Int) : String :=
  if n < 0 then "-" ++ natRepr (-n).toNat else natRepr n.toNat

/-- Escapes for Python `repr` of a string with quote character `q`
(backslash, the active quote, and the common control characters; the
source never feeds other escapables through `repr`). -/
def pyReprEsc (q c : Char) : List Char :=
  if c = bslash then [bslash, bslash]
  else if c = q then [bslash, q]
  else if c = Char.ofNat 10 then [bslash, 'n']
  else if c = Char.ofNat 13 then [bslash, 'r']
  else if c = Char.ofNat 9 then [bslash, 't']
  else [c]

/-- Python `repr` of a string: single quotes preferred, double quotes
when the string contains a single quote but no double quote. -/
def pyStrRepr (s : String) : String :=
  let q := if s.data.contains squote ∧ ¬ s.data.contains dquote then dquote else squote
  String.mk (q :: (s.data.flatMap (pyReprEsc q) ++ [q]))

mutual

/-- Python `str`/`repr` of a parsed argument value. -/
def pyReprV : Value → String
  | .vint n => intRepr n
  | .vbool b => if b then "True" else "False"
  | .vnone => "None"
  | .vstr s => pyStrRepr s
  | .vlist es => "[" ++ pyReprElems es ++ "]"
  | .vdict es => obrace ++ pyReprEntries es ++ cbrace

/-- Python `repr` of the elements of a list. -/
def pyReprElems : List Value → String
  | [] => ""
  | [v] => pyReprV v
  | v :: w :: rest => pyReprV v ++ ", " ++ pyReprElems (w :: rest)

/-- Python `repr` of the entries of a dict. -/
def pyReprEntries : List (String × Value) → String
  | [] => ""
  | [(k, v)] => pyStrRepr k ++ ": " ++ pyReprV v
  | (k, v) :: e :: rest => pyStrRepr k ++ ": " ++ pyReprV v ++ ", " ++ pyReprEntries (e :: rest)

end

/-- Python `str(arguments)` for the parsed argument dictionary. -/
def argsRepr (args : Args) : String :=
  obrace ++ pyReprEntries args ++ cbrace

/-- Python `str(v)`: identity on strings, `repr` otherwise. -/
def pyStrOfV : Value → String
  | .vstr s => s
  | v => pyReprV v

/-- Python rendering of an optional string in an f-string (`None` when
absent). -/
def pyOptStr : Option String → String
  | none => "None"
  | some s => s

/-- Python truthiness of an `Optional[int]`. -/
def pyTruthyNat : Option Nat → Bool
  | none => false
  | some n => n ≠ 0

/-- `json.dumps` escape of a character (quote, backslash, newline; the
flat objects the source dumps contain nothing else escapable). -/
def jsonEscChar (c : Char) : List Char :=
  if c = dquote then [bslash, dquote]
  else if c = bslash then [bslash, bslash]
  else if c = Char.ofNat 10 then [bslash, 'n']
  else [c]

/-- `json.dumps` of a string. -/
def jsonQuote (s : String) : String :=
  String.mk (dquote :: (s.data.flatMap jsonEscChar ++ [dquote]))

/-- `json.dumps` of a flat string-valued object, with CPython's default
`", "` / `": "` separators. -/
def jsonDumpsFlat (kvs : List (String × String)) : String :=
  obrace ++ joinSep ", " (kvs.map (fun kv => jsonQuote kv.1 ++ ": " ++ jsonQuote kv.2)) ++ cbrace

/-! JSON decoding (`json.loads`) for the flat string-valued objects the
loop and the transport exchange; every other input is the failure case. -/

/-- Unescape of a JSON string escape character. -/
def jsonUnesc (c : Char) : Option Char :=
  if c = dquote then some dquote
  else if c = bslash then some bslash
  else if c = '/' then some '/'
  else if c = 'n' then some (Char.ofNat 10)
  else if c = 't' then some (Char.ofNat 9)
  else if c = 'r' then some (Char.ofNat 13)
  else none

/-- Parse the body of a JSON string (after the opening quote), returning
the content and the rest; fuel-bounded by the input length. -/
def jsonStrBody : Nat → List Char → List Char → Option (String × List Char)
  | 0, _, _ => none
  | _, [], _ => none
  | fuel + 1, c :: rest, acc =>
    if c = dquote then some (String.mk acc.reverse, rest)
    else if c = bslash then
      match rest with
      | [] => none
      | e :: rest2 =>
        match jsonUnesc e with
        | some ch => jsonStrBody fuel rest2 (ch :: acc)
        | none => none
    else jsonStrBody fuel rest (c :: acc)

/-- Parse a JSON string token. -/
def jsonString? : List Char → Option (String × List Char)
  | [] => none
  | c :: rest => if c = dquote then jsonStrBody (rest.length + 1) rest [] else none

/-- The opening-brace character. -/
def obchar : Char := Char.ofNat 123

/-- The closing-brace character. -/
def cbchar : Char := Char.ofNat 125

/-- Parse the `"k": "v"` entries of a flat JSON object, fuel-bounded by
the input length. -/
def jsonEntriesF : Nat → List Char → Option (List (String × String) × List Char)
  | 0, _ => none
  | fuel + 1, l =>
    match jsonString? (l.dropWhile pyIsSpace) with
    | none => none
    | some (k, rest) =>
      match rest.dropWhile pyIsSpace with
      | ':' :: rest2 =>
        match jsonString? (rest2.dropWhile pyIsSpace) with
        | none => none
        | some (v, rest3) =>
          match rest3.dropWhile pyIsSpace with
          | ',' :: rest4 =>
            match jsonEntriesF fuel rest4 with
            | none => none
            | some (kvs, rest5) => some ((k, v) :: kvs, rest5)
          | c :: rest4 => if c = cbchar then some ([(k, v)], rest4) else none
          | [] => none
      | _ => none

/-- `json.loads` restricted to flat string-valued objects; `none` models
`json.JSONDecodeError` (and any non-dict result at the call sites that
require a dict). -/
def flatJson? (s : String) : Option (List (String × String)) :=
  match s.data.dropWhile pyIsSpace with
  | c :: rest =>
    if c = obchar then
      match rest.dropWhile pyIsSpace with
      | d :: rest2 =>
        if d = cbchar then
          if (rest2.dropWhile pyIsSpace).isEmpty then some [] else none
        else
          match jsonEntriesF (rest.length + 1) rest with
          | some (kvs, rest3) =>
            if (rest3.dropWhile pyIsSpace).isEmpty then some kvs else none
          | none => none
      | [] => none
    else none
  | [] => none

/-- Python `" ".join(words).title()`-style title casing. -/
def pyTitleAux : List Char → Bool → List Char
  | [], _ => []
  | c :: rest, prevAlpha =>
    (if c.isAlpha then (if prevAlpha then c.toLower else c.toUpper) else c) ::
      pyTitleAux rest c.isAlpha

/-- Python `s.title()`. -/
def pyTitle (s : String) : String :=
  String.mk (pyTitleAux s.data false)

/-- Leftmost match of the regex `\x7b"sheet_id":\s*"([^"]+)"` used by
`verify_sheet_created` (core/loop.py line 74): the literal prefix, then
whitespace, then a non-empty double-quoted capture. -/
def sheetIdScanL : List Char → Option String
  | [] => none
  | c :: rest =>
    let pat := (obrace ++ "\"sheet_id\":").data
    (if pat.isPrefixOf (c :: rest) then
      let after := ((c :: rest).drop pat.length).dropWhile pyIsSpace
      match after with
      | q :: body =>
        if q = dquote then
          let captured := body.takeWhile (fun d => d ≠ dquote)
          if captured ≠ [] ∧ (body.drop captured.length).head? = some dquote then
            some (String.mk captured)
          else sheetIdScanL rest
        else sheetIdScanL rest
      | [] => sheetIdScanL rest
    else sheetIdScanL rest)

/-- Characters excluded from the URL regex character class
`[^\s"<>'\)]`. -/
def linkExcluded (c : Char) : Bool :=
  pyIsSpace c ∨ c = dquote ∨ c = '<' ∨ c = '>' ∨ c = squote ∨ c = ')'

/-- Whether the text contains a match of the sheet-URL regex
`https://docs\.google\.com/spreadsheets/d/[^\s"<>'\)]+` used by
`verify_link_retrieved` (core/loop.py line 122). -/
def linkScanL : List Char → Bool
  | [] => false
  | c :: rest =>
    let pat := "https://docs.google.com/spreadsheets/d/".data
    (pat.isPrefixOf (c :: rest) &&
      (match ((c :: rest).drop pat.length).head? with
       | some d => ! linkExcluded d
       | none => false)) ||
    linkScanL rest

/-- A memory-trace record (modelled from the spec: `MemoryItem` of the
missing modules/memory.py has text, kind, tool name, originating query,
tags and session id; the loop constructs exactly these fields). -/
structure MemoryItem where
  text : String
  type : String
  toolName : String
  userQuery : String
  tags : List String
  sessionId : String
deriving Repr, DecidableEq

/-- modules/perception.py `PerceptionResult`. -/
structure Perception where
  user_input : String
  intent : Option String
  entities : List String
  tool_hint : Option String
  scope_limit : Option Nat
  scope_type : Option String
deriving Repr, DecidableEq

/-- What the external perception extractor hands back to the loop: a
structured record or a raw string (core/loop.py lines 180-226 handle the
string case). -/
inductive PerceptionRaw
  | res (p : Perception)
  | text (s : String)
deriving Repr, DecidableEq

/-- The normalized tool result the loop works with after the transport
and TextContent/json handling of core/loop.py lines 497-512: a flat
string-valued JSON object (as produced by the server side json.dumps) or
plain text. -/
inductive RVal
  | rdict (kvs : List (String × String))
  | rstr (s : String)
deriving Repr, DecidableEq

/-- One dispatcher invocation, recorded for observation: the tool, the
`(tool_name, truncated-argument)` fingerprint, the per-fingerprint
attempt count at call time, and the `_created_sheet_id` at call time. -/
structure DispatchRec where
  tool : String
  fp : String
  attempt : Nat
  sheetIdAtCall : String
deriving Repr, DecidableEq

/-- The environment of external collaborators, indexed by the loop step
that consults them (each iteration performs at most one perception call,
one planner call and one dispatch): `perception` is `extract_perception`,
`plan` is the external planner `decide_next_action` (modelled from the
spec: it returns one line of text), `dispatch` is the backend behind
`MultiMCP.call_tool`.  An `Except.error` models the collaborator
raising.  `tools` is the registered tool metadata `(name, parameter
keys)` consulted by `tool_expects_input`. -/
structure Env where
  userInput : String
  sessionId : String
  maxSteps : Nat
  tools : List (String × List String)
  perception : Nat → Except String PerceptionRaw
  plan : Nat → Except String String
  dispatch : Nat → Except String RVal

/-- The mutable state of `AgentLoop.run`: the `AgentContext` session
fields (modelled from the spec: user input, step index, append-only
memory trace, nullable final answer), the `AgentLoop` instance fields
and the local counters of `run` (core/loop.py lines 16-39 and 144-161).
`dispatchLog` and `plannerCalls` are observation-only ghost fields,
appended exactly when the dispatcher / planner is consulted. -/
structure LoopState where
  query : String
  stepIdx : Nat
  memoryTrace : List MemoryItem
  finalAnswer : String
  wfSearch : Bool
  wfSheet : Bool
  wfData : Bool
  wfLink : Bool
  createdSheetId : String
  createdSheetUrl : String
  pendingSheetLink : String
  toolCallAttempts : List (String × Nat)
  stepRetryCount : List (String × Nat)
  completedSteps : List String
  failedSteps : List (String × Nat)
  consecutiveFailures : Nat
  lastToolCall : Option String
  repeatedCalls : Nat
  currentPerception : Option Perception
  dispatchLog : List DispatchRec
  plannerCalls : Nat
deriving Repr, DecidableEq

/-- The state at the top of `AgentLoop.run`. -/
def initState (env : Env) : LoopState where
  query := env.userInput
  stepIdx := 0
  memoryTrace := []
  finalAnswer := ""
  wfSearch := false
  wfSheet := false
  wfData := false
  wfLink := false
  createdSheetId := ""
  createdSheetUrl := ""
  pendingSheetLink := ""
  toolCallAttempts := []
  stepRetryCount := []
  completedSteps := []
  failedSteps := []
  consecutiveFailures := 0
  lastToolCall := none
  repeatedCalls := 0
  currentPerception := none
  dispatchLog := []
  plannerCalls := 0

/-! ### core/loop.py — workflow verification helpers -/

/-- Scan of `verify_search_completed` (core/loop.py lines 48-56): a
memory item whose tool name contains `"search"` and whose text is longer
than 10 characters. -/
def verifySearchScan : List MemoryItem → Bool
  | [] => false
  | m :: rest =>
    (m.toolName ≠ "" && containsSub "search" (pyLower m.toolName) &&
      m.text ≠ "" && m.text.data.length > 10) ||
    verifySearchScan rest

/-- `verify_search_completed`, as a state update (the returned details
string is only logged). -/
def verify_search_completed (st : LoopState) : LoopState :=
  if verifySearchScan st.memoryTrace then { st with wfSearch := true } else st

/-- Scan of `verify_sheet_created` (core/loop.py lines 65-91): for each
memory item of a `create_google_sheet` call, try the sheet-id regex,
then — when the text mentions `sheet_id` — a `json.loads` of the whole
text. -/
def verifySheetScan : List MemoryItem → Option String
  | [] => none
  | m :: rest =>
    if m.toolName ≠ "" ∧ containsSub "create_google_sheet" (pyLower m.toolName) ∧ m.text ≠ "" then
      match sheetIdScanL m.text.data with
      | some sid => some sid
      | none =>
        if containsSub "sheet_id" (pyLower m.text) then
          match flatJson? m.text with
          | some kvs =>
            match aGet "sheet_id" kvs with
            | some sid => some sid
            | none => verifySheetScan rest
          | none => verifySheetScan rest
        else verifySheetScan rest
    else verifySheetScan rest

/-- `verify_sheet_created` (core/loop.py lines 58-91): short-circuit on a
tracked sheet id, otherwise extract one from memory (and store it). -/
def verify_sheet_created (st : LoopState) : LoopState :=
  if st.createdSheetId ≠ "" then { st with wfSheet := true }
  else
    match verifySheetScan st.memoryTrace with
    | some sid => { st with createdSheetId := sid, wfSheet := true }
    | none => st

/-- Scan of `verify_data_added` (core/loop.py lines 97-108). -/
def verifyDataScan : List MemoryItem → Bool
  | [] => false
  | m :: rest =>
    (m.toolName ≠ "" && containsSub "add_data_to_sheet" (pyLower m.toolName) &&
      m.text ≠ "" &&
      (containsSub "success" (pyLower m.text) || containsSub "updated_cells" (pyLower m.text))) ||
    verifyDataScan rest

/-- `verify_data_added`, as a state update. -/
def verify_data_added (st : LoopState) : LoopState :=
  if verifyDataScan st.memoryTrace then { st with wfData := true } else st

/-- Scan of `verify_link_retrieved` (core/loop.py lines 116-126). -/
def verifyLinkScan : List MemoryItem → Bool
  | [] => false
  | m :: rest =>
    (m.toolName ≠ "" && containsSub "get_sheet_link" (pyLower m.toolName) &&
      m.text ≠ "" && linkScanL m.text.data) ||
    verifyLinkScan rest

/-- `verify_link_retrieved` (core/loop.py lines 110-126). -/
def verify_link_retrieved (st : LoopState) : LoopState :=
  if st.pendingSheetLink ≠ "" then { st with wfLink := true }
  else if verifyLinkScan st.memoryTrace then { st with wfLink := true }
  else st

/-- The `workflow_steps` dict in its insertion order (core/loop.py lines
26-31). -/
def workflowItems (st : LoopState) : List (String × Bool) :=
  [("search_completed", st.wfSearch), ("sheet_created", st.wfSheet),
   ("data_added", st.wfData), ("link_retrieved", st.wfLink)]

/-- The `all_verified` / `all_steps_complete` conjunction (core/loop.py
lines 284-289 and 573-578). -/
def allVerified (st : LoopState) : Bool :=
  st.wfSearch && st.wfSheet && st.wfData && st.wfLink

/-- The names of the unsatisfied workflow steps, in dict order
(core/loop.py line 292). -/
def missingSteps (st : LoopState) : List String :=
  ((workflowItems st).filter (fun p => ¬ p.2)).map (fun p => p.1)

/-- `get_next_required_step` (core/loop.py lines 128-138). -/
def get_next_required_step (st : LoopState) : String × String :=
  if ¬ st.wfSearch then ("search", "Search for information first")
  else if ¬ st.wfSheet then ("create_sheet", "Create Google Sheet")
  else if ¬ st.wfData then ("add_data", "Add data to sheet")
  else if ¬ st.wfLink then ("get_link", "Get sheet link")
  else ("final_answer", "All steps completed - return FINAL_ANSWER")

/-- `tool_expects_input` (core/loop.py lines 41-46): the first registered
tool with this name has exactly the parameter key list `["input"]`. -/
def tool_expects_input (tools : List (String × List String)) (toolName : String) : Bool :=
  match tools.find? (fun t => t.1 = toolName) with
  | none => false
  | some t => t.2 == ["input"]

/-! ### core/loop.py — answers and queries -/

/-- Tool names appearing in the memory trace (`completed_tools`,
core/loop.py line 332 etc.). -/
def completedToolNames (st : LoopState) : List String :=
  st.memoryTrace.filterMap (fun m => if m.toolName ≠ "" then some m.toolName else none)

/-- The `summary` string `Completed N steps: ...` (core/loop.py lines
333, 360, 375, 776, 815). -/
def summaryOf (st : LoopState) : String :=
  "Completed " ++ natRepr (completedToolNames st).length ++ " steps: " ++
    joinComma (dedupFirst (completedToolNames st))

/-- The sheet-link selection used before a success answer (core/loop.py
lines 317-319 and 585-587): the pending link, else the stored url, else
a url constructed from the stored sheet id. -/
def sheetLinkOf (st : LoopState) : String :=
  let l := if st.pendingSheetLink ≠ "" then st.pendingSheetLink else st.createdSheetUrl
  if l = "" ∧ st.createdSheetId ≠ "" then
    "https://docs.google.com/spreadsheets/d/" ++ st.createdSheetId ++ "/edit"
  else l

/-- The synthesized success terminal answer (identical text at
core/loop.py lines 321-324 and 589-592). -/
def successAnswer (st : LoopState) : String :=
  let link := sheetLinkOf st
  if link ≠ "" then
    "FINAL_ANSWER: [Task completed successfully. Google Sheet created with the requested data. Sheet link: " ++ link ++ "]"
  else
    "FINAL_ANSWER: [Task completed successfully. Google Sheet created with the requested data.]"

/-- The step-budget terminal answer (core/loop.py line 334). -/
def partialAnswer (st : LoopState) : String :=
  "FINAL_ANSWER: [Task partially completed due to step limit. " ++ summaryOf st ++ "]"

/-- The consecutive-failure terminal answer (core/loop.py lines 361 and
777). -/
def abortAnswer (cf : Nat) (st : LoopState) : String :=
  "FINAL_ANSWER: [Task failed after " ++ natRepr cf ++ " consecutive failures. " ++ summaryOf st ++ "]"

/-- The loop-detection terminal answer (core/loop.py line 376). -/
def loopAnswer (st : LoopState) : String :=
  "FINAL_ANSWER: [Infinite loop detected. Task stopped. " ++ summaryOf st ++ "]"

/-- The outer-boundary terminal answer (core/loop.py line 804). -/
def genericFailureAnswer : String :=
  "FINAL_ANSWER: [Agent session failed due to error]"

/-- The degraded terminal answer of the perception string path
(core/loop.py lines 193 and 201) and of the final fallback (line 831). -/
def noResultAnswer : String :=
  "FINAL_ANSWER: [no result]"

/-- The completion-phase fallback answer (core/loop.py line 816). -/
def completionFallbackAnswer (st : LoopState) : String :=
  "FINAL_ANSWER: [Task completed. " ++ summaryOf st ++ "]"

/-- The corrective query sent after a rejected termination (core/loop.py
lines 296-304). -/
def rejectionQuery (user : String) (missing : List String) : String :=
  "Original user task: " ++ user ++
  "\n                        \nYou tried to return FINAL_ANSWER but the following workflow steps are not completed:\n" ++
  joinComma missing ++
  "\n\nMANDATORY WORKFLOW (must complete ALL steps):\n1. Search → 2. Create Sheet → 3. Add Data → 4. Get Link → 5. FINAL_ANSWER\n\nComplete the missing steps before returning FINAL_ANSWER."

/-- The corrective query sent after a prevented duplicate sheet creation
(core/loop.py lines 416-421). -/
def dedupQuery (user sid : String) : String :=
  "Original user task: " ++ user ++
  "\n\n⚠️ You tried to create a new sheet, but a sheet already exists (ID: " ++ sid ++
  ").\nUse the EXISTING sheet_id to add data: add_data_to_sheet|input.sheet_id=\"" ++ sid ++
  "\"|input.data=[[...]]\n\nDo NOT create another sheet - this will cause rate limit errors."

/-- The error-annotated retry query (core/loop.py lines 784-788). -/
def retryQuery (user err : String) : String :=
  "Original user task: " ++ user ++
  "\n                        \nError occurred in previous step: " ++ err ++
  "\n\nRetry this step with a different approach or provide FINAL_ANSWER if task cannot be completed."

/-- The error-annotated advance query (core/loop.py lines 794-796). -/
def advanceQuery (user : String) : String :=
  "Original user task: " ++ user ++
  "\n                        \nPrevious step failed after 3 attempts. Continue to next step or provide FINAL_ANSWER if task cannot be completed."

/-! ### core/loop.py — the execution phase -/

/-- Python `set.add` modelled on an insertion-ordered list. -/
def addIfAbsent (x : String) (l : List String) : List String :=
  if l.contains x then l else l ++ [x]

/-- The call fingerprint `f"(tool_name)_(str(arguments)[:50])"` used both
for loop detection (core/loop.py line 368) and as the cumulative attempt
key (line 425). -/
def fingerprintOf (toolName : String) (args : Args) : String :=
  toolName ++ "_" ++ pyTake 50 (argsRepr args)

/-- `result_str` (core/loop.py line 514): `markdown` field of a dict
result (possibly `None`), otherwise the string itself with the Python
falsy case mapped to `"No result"`. -/
def resultStrOf : RVal → Option String
  | .rdict kvs => aGet "markdown" kvs
  | .rstr s => if s = "" then some "No result" else some s

/-- The `[STRUCTURED_DATA]` suffix appended to the memory text for dict
results (core/loop.py lines 599-600). -/
def structuredSuffix : RVal → String
  | .rdict kvs => "\n[STRUCTURED_DATA]: " ++ jsonDumpsFlat kvs
  | .rstr _ => ""

/-- The memory text `f"(tool)((args)) → (result)"` (core/loop.py lines
399 and 598). -/
def memoryText (toolName : String) (args : Args) (result : String) : String :=
  toolName ++ "(" ++ argsRepr args ++ ") → " ++ result

/-- The `sheet_id`-or-`sheetId` extraction with Python `or` fallthrough
(core/loop.py lines 533, 637). -/
def dictSheetId (kvs : List (String × String)) : String :=
  let a := (aGet "sheet_id" kvs).getD ""
  if a ≠ "" then a else (aGet "sheetId" kvs).getD ""

/-- The `sheet_url`-or-`sheetUrl` extraction (core/loop.py lines 536,
638). -/
def dictSheetUrl (kvs : List (String × String)) : String :=
  let a := (aGet "sheet_url" kvs).getD ""
  if a ≠ "" then a else (aGet "sheetUrl" kvs).getD ""

/-- The verification chain run after a successful tool call
(core/loop.py lines 523-561): the branch is selected by substring match
on the lowered tool name; the `create_google_sheet` branch first stores
the sheet id/url delivered in the result. -/
def verifyChain (toolName : String) (resultObj : RVal) (st : LoopState) : LoopState :=
  let tl := pyLower toolName
  if containsSub "search" tl || containsSub "search_documents" tl then
    verify_search_completed st
  else if containsSub "create_google_sheet" tl then
    let st2 :=
      match resultObj with
      | .rdict kvs =>
        let sid := dictSheetId kvs
        if sid ≠ "" then
          { st with createdSheetId := sid, createdSheetUrl := dictSheetUrl kvs, wfSheet := true }
        else st
      | .rstr _ => st
    verify_sheet_created st2
  else if containsSub "add_data_to_sheet" tl then
    verify_data_added st
  else if containsSub "get_sheet_link" tl then
    verify_link_retrieved st
  else st

/-- The sheet id read from the parsed arguments (core/loop.py lines
661-665), rendered through Python `str` for non-string values. -/
def argsSheetId (arguments : Args) : String :=
  match aGet "input" arguments with
  | some (.vdict inner) => ((aGet "sheet_id" inner).map pyStrOfV).getD ""
  | _ => ((aGet "sheet_id" arguments).map pyStrOfV).getD ""

/-- The text of the first search-tool memory item, if any (core/loop.py
lines 701-707, also 647-653). -/
def firstSearchText (l : List MemoryItem) : Option String :=
  match l with
  | [] => none
  | m :: rest =>
    if m.toolName ≠ "" ∧ containsSub "search" (pyLower m.toolName) ∧ m.text ≠ "" then
      some m.text
    else firstSearchText rest

/-- The `search_context` block of the next-step query (core/loop.py
lines 700-707). -/
def searchContextOf (st : LoopState) : String :=
  match firstSearchText st.memoryTrace with
  | some t =>
    "\n\n📊 Search Results (for data extraction):\n" ++ pyTake 1500 t ++
      (if t.data.length > 1500 then "..." else "")
  | none => ""

/-- Guidance after a search tool (core/loop.py lines 626-631). -/
def searchGuidance (title : String) : String :=
  "\n\nNEXT: Create a Google Sheet to store this data. Use: create_google_sheet|input.title=\"" ++
    title ++ "\""

/-- Guidance after a sheet creation (core/loop.py line 656). -/
def createGuidance (sid limitText scopeStr : String) : String :=
  "\n\n✅ Sheet created successfully! Sheet ID: " ++ sid ++
  "\n\n⚠️ IMPORTANT: Do NOT create another sheet. Use this sheet_id: " ++ sid ++
  "\n\nNEXT: Extract data from search results and add to sheet (" ++ limitText ++
  " results).\n\n🔴 CRITICAL FORMATTING INSTRUCTIONS:\n- Use: add_data_to_sheet|input.sheet_id=\"" ++ sid ++
  "\"|input.data=[[\"Header1\",\"Header2\"],[\"Row1Col1\",\"Row1Col2\"],[\"Row2Col1\",\"Row2Col2\"]]\n" ++
  "- Format MUST be: [[\"Header1\",\"Header2\"],[\"DataRow1Col1\",\"DataRow1Col2\"],[\"DataRow2Col1\",\"DataRow2Col2\"],...]\n" ++
  "- First row MUST be headers (e.g., [\"Rank\",\"Name\",\"Score\"])\n" ++
  "- Each row MUST be a list of strings: [\"Value1\",\"Value2\",\"Value3\"]\n" ++
  "- Extract data from search results above - DO NOT use placeholder data\n" ++
  "- Limit to " ++ scopeStr ++ " data rows (excluding header) if scope_limit is set\n" ++
  "- Example for 3 items: [[\"Rank\",\"Name\",\"Points\"],[\"1\",\"Team A\",\"95\"],[\"2\",\"Team B\",\"87\"],[\"3\",\"Team C\",\"82\"]]\n\n" ++
  "⚠️ If you don't extract real data, the sheet will be blank!"

/-- Guidance after adding data (core/loop.py line 673). -/
def addDataGuidance (sid : String) : String :=
  "\n\n✅ Data added to sheet successfully!\n\nNEXT: Get the sheet link using: get_sheet_link|input.sheet_id=\"" ++
  sid ++ "\"\n\nIMPORTANT: Use the EXACT sheet_id: " ++ sid ++
  "\nAfter getting the link, you can return FINAL_ANSWER. The link will be sent to the user via Telegram."

/-- Guidance after retrieving the sheet link (core/loop.py line 696). -/
def linkGuidance (link : String) : String :=
  "\n\n✅ Sheet link retrieved successfully: " ++ link ++
  "\n\n🎉 ALL STEPS COMPLETE! Return FINAL_ANSWER immediately.\n\nReturn FINAL_ANSWER: [Task completed successfully. Google Sheet created with the requested data. Sheet link: " ++
  link ++ "]\n\nThe sheet link will be sent to the user via Telegram."

/-- The `workflow_guidance` computation (core/loop.py lines 625-698),
including its state mutations: the `create_google_sheet` branch
re-stores the sheet id/url, the `get_sheet_link` branch stores the
pending sheet link and marks `link_retrieved`. -/
def guidanceOf (arguments : Args) (toolName : String) (resultObj : RVal)
    (st : LoopState) : LoopState × String :=
  let scopeLimit := match st.currentPerception with
    | some p => p.scope_limit
    | none => none
  let tl := pyLower toolName
  if containsSub "search" tl || containsSub "search_documents" tl then
    let title :=
      match st.currentPerception with
      | some p =>
        if p.entities ≠ [] then pyTitle (joinSep " " (p.entities.take 2)) else "Data Results"
      | none => "Data Results"
    (st, searchGuidance title)
  else if containsSub "create_google_sheet" tl then
    let sid := match resultObj with
      | .rdict kvs => dictSheetId kvs
      | .rstr _ => ""
    let surl := match resultObj with
      | .rdict kvs => dictSheetUrl kvs
      | .rstr _ => ""
    if sid ≠ "" then
      let st2 := { st with createdSheetId := sid, createdSheetUrl := surl }
      let limitText := if pyTruthyNat scopeLimit then "top " ++ natRepr (scopeLimit.getD 0) else "all available"
      (st2, createGuidance sid limitText (match scopeLimit with | none => "None" | some n => natRepr n))
    else (st, "")
  else if containsSub "add_data_to_sheet" tl then
    let sid0 := if st.createdSheetId ≠ "" then st.createdSheetId else argsSheetId arguments
    let sid := if st.createdSheetId ≠ "" ∧ sid0 ≠ st.createdSheetId then st.createdSheetId else sid0
    if sid ≠ "" then (st, addDataGuidance sid) else (st, "")
  else if containsSub "get_sheet_link" tl then
    let l0 := match resultObj with
      | .rdict kvs =>
        let a := (aGet "link" kvs).getD ""
        let b := if a ≠ "" then a else (aGet "sheet_url" kvs).getD ""
        if b ≠ "" then b else (aGet "sheetUrl" kvs).getD ""
      | .rstr _ => ""
    let l1 := if l0 = "" ∧ st.createdSheetUrl ≠ "" then st.createdSheetUrl else l0
    let l2 :=
      if l1 = "" ∧ st.createdSheetId ≠ "" then
        "https://docs.google.com/spreadsheets/d/" ++ st.createdSheetId ++ "/edit"
      else l1
    if l2 ≠ "" then
      ({ st with pendingSheetLink := l2, wfLink := true }, linkGuidance l2)
    else (st, "\n\n⚠️ Failed to get sheet link. Try again or check sheet_id is correct.")
  else (st, "")

/-- The next-step query built after a successful execution (core/loop.py
lines 709-759). -/
def nextQuery (user used toolName rs searchContext guidance : String)
    (i maxSteps : Nat) (scope : Option Nat) : String :=
  let scopeStr := match scope with | none => "None" | some n => natRepr n
  let scopeOr := match scope with
    | some n => if n ≠ 0 then natRepr n else "no limit"
    | none => "no limit"
  joinSep "\n"
    [ "Original user task: " ++ user
    , ""
    , "    Tools used so far: " ++ used
    , "    "
    , "    Your last tool (" ++ toolName ++ ") produced this result:"
    , ""
    , "    " ++ pyTake 1000 rs ++ (if rs.data.length > 1000 then "..." else "")
    , "    " ++ searchContext
    , "    "
    , "    " ++ guidance
    , "    "
    , "    Step: " ++ natRepr (i + 2) ++ " of " ++ natRepr maxSteps
    , "    "
    , "    CRITICAL INSTRUCTIONS:"
    , "    - If you just created a sheet, you MUST extract relevant data from search results above"
    , "    - Look for patterns in search results (e.g., rankings, standings, scores, lists, tables, key-value pairs)"
    , "    - 🔴 Format data EXACTLY as: [[\"Header1\",\"Header2\"],[\"Row1Col1\",\"Row1Col2\"],[\"Row2Col1\",\"Row2Col2\"],...]"
    , "    - 🔴 ALL values MUST be quoted strings: [[\"Rank\",\"Name\",\"Score\"],[\"1\",\"Team A\",\"95\"],[\"2\",\"Team B\",\"87\"]]"
    , "    - 🔴 First row MUST be headers: [[\"Rank\",\"Name\",\"Points\"],...]"
    , "    - 🔴 Each subsequent row MUST be data: [\"1\",\"Team A\",\"95\"]"
    , "    - Limit to " ++ scopeStr ++ " data rows (excluding header) if scope_limit is set (currently: " ++ scopeOr ++ ")"
    , "    - Extract headers based on the data type found in search results:"
    , "      * For rankings/standings: [\"Rank\",\"Name\",\"Value\"] or [\"Position\",\"Item\",\"Score\"]"
    , "      * For lists/tables: [\"Name\",\"Value\"] or [\"Key\",\"Data\"]"
    , "      * For time-based data: [\"Date\",\"Value\"] or [\"Time\",\"Metric\"]"
    , "      * For generic data: [\"Column1\",\"Column2\",\"Column3\"] based on what's in the results"
    , "    - Use the EXACT sheet_id from the create_google_sheet result above (it's in the STRUCTURED_DATA section)"
    , "    - Do NOT skip this step - adding data is required!"
    , "    - ⚠️ If you don't extract real data from search results, the sheet will remain blank!"
    , "    "
    , "    🔴 MANDATORY WORKFLOW (MUST COMPLETE ALL STEPS):"
    , "    1. Search → 2. Create Sheet → 3. Add Data → 4. Get Link → 5. FINAL_ANSWER"
    , "    "
    , "    Check which steps you've completed:"
    , "    - Tools used so far: " ++ used
    , "    "
    , "    Required steps checklist:"
    , "    - [ ] search or search_documents (completed if 'search' in tools used)"
    , "    - [ ] create_google_sheet (completed if 'create_google_sheet' in tools used)"
    , "    - [ ] add_data_to_sheet (completed if 'add_data_to_sheet' in tools used)"
    , "    - [ ] get_sheet_link (completed if 'get_sheet_link' in tools used)"
    , "    "
    , "    🔴 IF YOU JUST CALLED get_sheet_link:"
    , "    - Task is complete! Return FINAL_ANSWER with a summary"
    , "    - The sheet link will automatically be sent to the user via Telegram"
    , "    - Format: FINAL_ANSWER: [Task completed successfully. Google Sheet created with the requested data. Sheet link: <link>]"
    , "    "
    , "    If you have completed ALL 4 steps (search, create_google_sheet, add_data_to_sheet, get_sheet_link), return:"
    , "    FINAL_ANSWER: [Task completed successfully. Google Sheet created with the requested data. Summary: <what was done>]"
    , ""
    , "    Otherwise, return the next FUNCTION_CALL to continue the workflow." ]

/-- The hard-cap exception message (core/loop.py line 433). -/
def capMsg (toolName : String) : String :=
  "Tool '" ++ toolName ++ "' exceeded maximum attempts (3). This may be due to rate limits (429) or persistent errors. Please try again later."

/-- The dispatch-failure handler (core/loop.py lines 463-495): detect
rate limits and the attempt cap and re-raise, possibly with a rewritten
message. -/
def dispatchErrMsg (toolName : String) (cnt : Nat) (errMsg : String) : String :=
  let isRateLimit := containsSub "429" errMsg || containsSub "RESOURCE_EXHAUSTED" (pyUpper errMsg) ||
    containsSub "rate limit" (pyLower errMsg)
  if isRateLimit ∧ cnt ≥ 3 then
    "Rate limit exceeded after 3 attempts for '" ++ toolName ++ "'. Please wait before trying again."
  else if cnt ≥ 3 then
    "Tool '" ++ toolName ++ "' failed after 3 attempts. Last error: " ++ errMsg
  else errMsg

/-! ### core/loop.py — step function -/

/-- Outcome of the execution `try` block (core/loop.py lines 344-759):
continue to the next iteration, break the loop, or raise into the
per-step `except` handler (the raised state keeps every mutation made
before the raise, as Python does). -/
inductive ExecRes
  | contE (st : LoopState)
  | stopE (st : LoopState)
  | raised (msg : String) (st : LoopState)

/-- Outcome of one `for` iteration. -/
inductive StepOut
  | cont (st : LoopState)
  | stop (st : LoopState)

/-- The duplicate-sheet-creation prevention branch (core/loop.py lines
386-422): synthesize a success result with the stored sheet id, append
it to memory as a `tool_output` item, mark the step completed and
continue with a corrective query — without invoking the dispatcher. -/
def dedupBranch (env : Env) (i : Nat) (toolName : String) (arguments : Args)
    (st : LoopState) : ExecRes :=
  let resultKvs :=
    [ ("sheet_id", st.createdSheetId)
    , ("sheet_url",
        if st.createdSheetUrl ≠ "" then st.createdSheetUrl
        else "https://docs.google.com/spreadsheets/d/" ++ st.createdSheetId ++ "/edit")
    , ("message", "Using existing sheet (duplicate creation prevented)") ]
  let resultStr := jsonDumpsFlat resultKvs
  let item : MemoryItem :=
    { text := memoryText toolName arguments resultStr
      type := "tool_output"
      toolName := toolName
      userQuery := env.userInput
      tags := [toolName]
      sessionId := env.sessionId }
  let stepKey := "step_" ++ natRepr i
  .contE { st with
    memoryTrace := st.memoryTrace ++ [item]
    completedSteps := addIfAbsent stepKey st.completedSteps
    stepRetryCount := aSet stepKey 0 st.stepRetryCount
    query := dedupQuery env.userInput st.createdSheetId }

/-- The success path after a dispatched tool call (core/loop.py lines
497-759): compute `result_str`, run the verification chain, mark the
step completed, terminate early when all four workflow flags hold,
otherwise append the memory item, reset the failure counters, compute
the guidance (with its mutations) and build the next query — where
slicing a `None` `result_str` raises a `TypeError` into the per-step
handler. -/
def successPath (env : Env) (i : Nat) (toolName : String) (arguments : Args)
    (resultObj : RVal) (st : LoopState) : ExecRes :=
  let resultStr := resultStrOf resultObj
  let st2 := verifyChain toolName resultObj st
  let stepKey := "step_" ++ natRepr i
  let st3 := { st2 with
    completedSteps := addIfAbsent stepKey st2.completedSteps
    stepRetryCount := aSet stepKey 0 st2.stepRetryCount }
  if allVerified st3 then
    .stopE { st3 with finalAnswer := successAnswer st3 }
  else
    let item : MemoryItem :=
      { text := memoryText toolName arguments (pyOptStr resultStr) ++ structuredSuffix resultObj
        type := "tool_output"
        toolName := toolName
        userQuery := env.userInput
        tags := [toolName]
        sessionId := env.sessionId }
    let st4 := { st3 with
      memoryTrace := st3.memoryTrace ++ [item]
      consecutiveFailures := 0
      repeatedCalls := 0 }
    let used := joinComma (dedupFirst (completedToolNames st4))
    let scopeLimit := match st4.currentPerception with
      | some p => p.scope_limit
      | none => none
    let gres := guidanceOf arguments toolName resultObj st4
    let st5 := gres.1
    let searchContext := searchContextOf st5
    match resultStr with
    | none => .raised "TypeError: 'NoneType' object is not subscriptable" st5
    | some rs =>
      .contE { st5 with
        query := nextQuery env.userInput used toolName rs searchContext gres.2 i env.maxSteps scopeLimit }

/-- Continuation of the execution phase after the repeated-call check
(core/loop.py lines 385-759). -/
def execAfterLoopCheck (env : Env) (i : Nat) (toolName : String) (arguments : Args)
    (st : LoopState) : ExecRes :=
  if containsSub "create_google_sheet" (pyLower toolName) ∧ st.createdSheetId ≠ "" then
    dedupBranch env i toolName arguments st
  else
    let key := fingerprintOf toolName arguments
    let cnt := (aGet key st.toolCallAttempts).getD 0 + 1
    let st2 := { st with toolCallAttempts := aSet key cnt st.toolCallAttempts }
    if cnt > 3 then
      .raised (capMsg toolName) st2
    else
      let rec2 : DispatchRec := ⟨toolName, key, cnt, st2.createdSheetId⟩
      match env.dispatch i with
      | .ok resultObj =>
        let st3 := { st2 with
          dispatchLog := st2.dispatchLog ++ [rec2]
          toolCallAttempts := aSet key 0 st2.toolCallAttempts }
        successPath env i toolName arguments resultObj st3
      | .error toolError =>
        let st3 := { st2 with dispatchLog := st2.dispatchLog ++ [rec2] }
        .raised (dispatchErrMsg toolName cnt toolError) st3

/-- The execution phase (core/loop.py lines 342-759): parse the plan,
apply the per-step retry gate, the repeated-call detection, the
duplicate-sheet-creation prevention and the cumulative attempt cap, then
dispatch.  `dispatchLog` records every dispatcher invocation together
with the attempt count and the stored sheet id at call time. -/
def execPhase (env : Env) (i : Nat) (plan : String) (st : LoopState) : ExecRes :=
  match parse_function_call plan with
  | .error e => .raised e st
  | .ok (toolName, arguments) =>
    let stepKey := "step_" ++ natRepr i
    let retryCount := (aGet stepKey st.stepRetryCount).getD 0
    if retryCount ≥ 3 then
      let st2 := { st with
        failedSteps := aSet stepKey retryCount st.failedSteps
        consecutiveFailures := st.consecutiveFailures + 1 }
      if st2.consecutiveFailures ≥ 3 then
        .stopE { st2 with finalAnswer := abortAnswer st2.consecutiveFailures st2 }
      else .contE st2
    else
      let currentCall := fingerprintOf toolName arguments
      if st.lastToolCall = some currentCall then
        let st2 := { st with repeatedCalls := st.repeatedCalls + 1 }
        if st2.repeatedCalls ≥ 2 then
          .stopE { st2 with finalAnswer := loopAnswer st2 }
        else execAfterLoopCheck env i toolName arguments st2
      else
        execAfterLoopCheck env i toolName arguments
          { st with repeatedCalls := 0, lastToolCall := some currentCall }

/-! ### core/loop.py — perception, gating, failure handling, run -/

/-- Outcome of the perception phase: break with a final answer, or a
usable `PerceptionResult`. -/
inductive PerceiveRes
  | stopP (st : LoopState)
  | okP (p : Perception)

/-- `PerceptionResult(**parsed)` over a decoded flat JSON object (the
pydantic validation at core/loop.py line 213): `user_input` is required;
a flat string cannot validate as the `entities` list; `scope_limit` must
coerce to an integer. -/
def perceptionFromKvs (kvs : List (String × String)) : Option Perception :=
  match aGet "user_input" kvs with
  | none => none
  | some ui =>
    if (aGet "entities" kvs).isSome then none
    else
      let scope : Option (Option Nat) :=
        match aGet "scope_limit" kvs with
        | none => some none
        | some s =>
          match pyIntLit (pyStrip s) with
          | some n => if n < 0 then none else some (some n.toNat)
          | none => none
      match scope with
      | none => none
      | some sl =>
        some
          { user_input := ui
            intent := aGet "intent" kvs
            entities := []
            tool_hint := aGet "tool_hint" kvs
            scope_limit := sl
            scope_type := aGet "scope_type" kvs }

/-- The keyword-heuristic fallback perception (core/loop.py lines
218-225). -/
def fallbackPerception (query : String) : Perception :=
  let ql := pyLower query
  let scopey := containsSub "standings" ql || containsSub "rankings" ql ||
    containsSub "leaderboard" ql || containsSub "points" ql
  { user_input := query
    intent := some "process query"
    entities := []
    tool_hint :=
      if containsSub "find" ql || containsSub "search" ql || containsSub "get" ql ||
          containsSub "show" ql then some "search" else none
    scope_limit := if scopey then some 10 else none
    scope_type := if scopey then some "top" else none }

/-- The string-result handling of the perception phase (core/loop.py
lines 180-226): either a final answer ending the session, or a usable
`PerceptionResult` (decoded, or the keyword fallback). -/
def perceiveDecode (query : String) (praw : PerceptionRaw) (st : LoopState) :
    Sum LoopState Perception :=
  match praw with
  | .text s =>
    let prStr := pyStrip s
    if pyStartsWith prStr "FINAL_ANSWER:" then
      Sum.inl { st with finalAnswer := prStr }
    else if containsSub "Your last tool produced this result" prStr ||
        containsSub "Original user task:" prStr then
      Sum.inl { st with finalAnswer := noResultAnswer }
    else
      match flatJson? prStr with
      | none => Sum.inl { st with finalAnswer := noResultAnswer }
      | some kvs =>
        match perceptionFromKvs kvs with
        | some p => Sum.inr p
        | none => Sum.inr (fallbackPerception query)
  | .res p => Sum.inr p

/-- The perception phase (core/loop.py lines 175-238): a string result
either ends the session (`FINAL_ANSWER` echo, prompt echo, or
undecodable text) or decodes into a `PerceptionResult`, falling back to
the keyword heuristics; this path never raises. -/
def perceivePhase (query : String) (praw : PerceptionRaw) (st : LoopState) : PerceiveRes :=
  match perceiveDecode query praw st with
  | Sum.inl st2 => .stopP st2
  | Sum.inr p0 =>
    -- lines 229-230: ensure a non-empty user_input
    .okP (if p0.user_input = "" then { p0 with user_input := query } else p0)

/-- The terminal-proposal gate (core/loop.py lines 282-327), entered
when the plan contains `FINAL_ANSWER:`: reject (continue with the
corrective query naming the missing steps) unless all four workflow
flags hold; then extract the last line beginning with the marker, or
synthesize the success answer when no line begins with it. -/
def decideGate (env : Env) (plan : String) (st : LoopState) : StepOut :=
  if ¬ allVerified st then
    .cont { st with query := rejectionQuery env.userInput (missingSteps st) }
  else
    let finalLines :=
      (pySplit (Char.ofNat 10) plan).filter (fun l => pyStartsWith (pyStrip l) "FINAL_ANSWER:")
    match finalLines.getLast? with
    | some l => .stop { st with finalAnswer := pyStrip l }
    | none => .stop { st with finalAnswer := successAnswer st }

/-- The per-step `except` handler (core/loop.py lines 760-797):
increment the per-step retry counter and the consecutive-failure
counter; abort at the consecutive-failure cap; below the per-step cap
continue with the error-annotated retry query, at the cap continue with
the advance query. -/
def failureHandler (env : Env) (i : Nat) (msg : String) (st : LoopState) : StepOut :=
  let stepKey := "step_" ++ natRepr i
  let rc := (aGet stepKey st.stepRetryCount).getD 0 + 1
  let st2 := { st with
    stepRetryCount := aSet stepKey rc st.stepRetryCount
    consecutiveFailures := st.consecutiveFailures + 1 }
  if st2.consecutiveFailures ≥ 3 then
    .stop { st2 with finalAnswer := abortAnswer st2.consecutiveFailures st2 }
  else if rc < 3 then
    .cont { st2 with query := retryQuery env.userInput msg }
  else
    .cont { st2 with
      failedSteps := aSet stepKey rc st2.failedSteps
      query := advanceQuery env.userInput }

/-- One iteration of the `for step in range(max_steps)` loop
(core/loop.py lines 163-797).  An `Except.error` is an exception
escaping the loop body into the outer boundary (only the external
perception extractor or planner raising can cause one; every exception
of the execution phase is caught by the per-step handler). -/
def runStep (env : Env) (i : Nat) (st0 : LoopState) : Except String StepOut :=
  let st := { st0 with stepIdx := i }
  match env.perception i with
  | .error e => .error e
  | .ok praw =>
    match perceivePhase st.query praw st with
    | .stopP st2 => .ok (.stop st2)
    | .okP p =>
      -- memory retrieval (phase 2) is a read-only external call whose result
      -- feeds only the external planner; it does not touch the loop state
      let st2 := { st with currentPerception := some p }
      match env.plan i with
      | .error e => .error e
      | .ok plan =>
        let st3 := { st2 with plannerCalls := st2.plannerCalls + 1 }
        if containsSub "FINAL_ANSWER:" plan then
          .ok (decideGate env plan st3)
        else if i + 1 ≥ env.maxSteps then
          .ok (.stop { st3 with finalAnswer := partialAnswer st3 })
        else
          match execPhase env i plan st3 with
          | .contE s => .ok (.cont s)
          | .stopE s => .ok (.stop s)
          | .raised msg s => .ok (failureHandler env i msg s)

/-- The `for` loop over the remaining step indices. -/
def runIters (env : Env) : List Nat → LoopState → Except String LoopState
  | [], st => .ok st
  | i :: rest, st =>
    match runStep env i st with
    | .error e => .error e
    | .ok (.stop st2) => .ok st2
    | .ok (.cont st2) => runIters env rest st2

/-- The state at the end of the `try` block of `AgentLoop.run`, or the
escaped exception. -/
def runSt (env : Env) : Except String LoopState :=
  runIters env (List.range env.maxSteps) (initState env)

/-- `AgentLoop.run` (core/loop.py lines 140-831): run the step loop
inside the outer try/except (an escaped exception sets the generic
failure answer), then the completion phase returns the final answer,
synthesizing a fallback when none was set. -/
def runAgent (env : Env) : String :=
  match runSt env with
  | .error _ => genericFailureAnswer
  | .ok st =>
    let fa := if st.finalAnswer = "" then completionFallbackAnswer st else st.finalAnswer
    if fa = "" then noResultAnswer else fa

/-! ### Infrastructure lemmas -/

/-- The boolean substring test agrees with `List.IsInfix`. -/
theorem hasInfix_iff {n h : List Char} : hasInfix n h = true ↔ n <:+: h := by
  induction h with
  | nil =>
    simp only [hasInfix, List.isEmpty_iff]
    constructor
    · rintro rfl; exact List.infix_rfl
    · intro hi; exact List.eq_nil_of_infix_nil hi
  | cons c rest ih =>
    simp only [hasInfix, Bool.or_eq_true, ih, List.isPrefixOf_iff_prefix]
    exact (List.infix_cons_iff).symm

/-- Substring of the left part of an append. -/
theorem containsSub_append_left {n a : String} (b : String)
    (h : containsSub n a = true) : containsSub n (a ++ b) = true := by
  simp only [containsSub, String.data_append] at *
  exact hasInfix_iff.mpr ((hasInfix_iff.mp h).trans ((List.prefix_append _ _).isInfix))

/-- Substring of the right part of an append. -/
theorem containsSub_append_right {n b : String} (a : String)
    (h : containsSub n b = true) : containsSub n (a ++ b) = true := by
  simp only [containsSub, String.data_append] at *
  exact hasInfix_iff.mpr ((hasInfix_iff.mp h).trans ((List.suffix_append _ _).isInfix))

/-- A member of a comma join is a substring of it. -/
theorem containsSub_joinComma {m : String} : ∀ {xs : List String}, m ∈ xs →
    containsSub m (joinComma xs) = true := by
  intro xs
  induction xs with
  | nil => intro h; cases h
  | cons x rest ih =>
    intro h
    rcases List.mem_cons.mp h with rfl | hmem
    · cases rest with
      | nil =>
        simp only [joinComma, joinSep, containsSub]
        exact hasInfix_iff.mpr List.infix_rfl
      | cons y t =>
        simp only [joinComma, joinSep]
        exact containsSub_append_left _ (containsSub_append_left _
          (by simp only [containsSub]; exact hasInfix_iff.mpr List.infix_rfl))
    · cases rest with
      | nil => cases hmem
      | cons y t =>
        simp only [joinComma, joinSep] at *
        exact containsSub_append_right _ (ih hmem)

/-- Prefix preservation under append on the right. -/
theorem pyStartsWith_append {s : String} (t : String)
    (h : pyStartsWith s "FINAL_ANSWER:" = true) :
    pyStartsWith (s ++ t) "FINAL_ANSWER:" = true := by
  simp only [pyStartsWith, String.data_append] at *
  exact List.isPrefixOf_iff_prefix.mpr
    ((List.isPrefixOf_iff_prefix.mp h).trans (List.prefix_append _ _))

/-- All synthesized terminal answers begin with the terminal marker. -/
theorem successAnswer_starts (st : LoopState) :
    pyStartsWith (successAnswer st) "FINAL_ANSWER:" = true := by
  unfold successAnswer
  by_cases h : sheetLinkOf st ≠ ""
  · simp only [if_pos h]
    exact pyStartsWith_append _ (pyStartsWith_append _ (by decide))
  · simp only [if_neg h]; decide

/-- The step-budget answer begins with the terminal marker. -/
theorem partialAnswer_starts (st : LoopState) :
    pyStartsWith (partialAnswer st) "FINAL_ANSWER:" = true :=
  pyStartsWith_append _ (pyStartsWith_append _ (by decide))

/-- The consecutive-failure answer begins with the terminal marker. -/
theorem abortAnswer_starts (cf : Nat) (st : LoopState) :
    pyStartsWith (abortAnswer cf st) "FINAL_ANSWER:" = true :=
  pyStartsWith_append _ (pyStartsWith_append _ (pyStartsWith_append _
    (pyStartsWith_append _ (by decide))))

/-- The loop-detection answer begins with the terminal marker. -/
theorem loopAnswer_starts (st : LoopState) :
    pyStartsWith (loopAnswer st) "FINAL_ANSWER:" = true :=
  pyStartsWith_append _ (pyStartsWith_append _ (by decide))

/-- The completion-phase fallback answer begins with the terminal
marker. -/
theorem completionFallbackAnswer_starts (st : LoopState) :
    pyStartsWith (completionFallbackAnswer st) "FINAL_ANSWER:" = true :=
  pyStartsWith_append _ (pyStartsWith_append _ (by decide))

/-- The state carried by a step outcome. -/
def stepStates : StepOut → LoopState
  | .cont s => s
  | .stop s => s

/-- The state carried by an execution-phase outcome. -/
def execStates : ExecRes → LoopState
  | .contE s => s
  | .stopE s => s
  | .raised _ s => s

/-- The final answer is empty or begins with the terminal marker. -/
def faOk (st : LoopState) : Prop :=
  st.finalAnswer = "" ∨ pyStartsWith st.finalAnswer "FINAL_ANSWER:" = true

/-- A perception-phase stop always carries a marker-prefixed answer. -/
theorem perceiveDecode_inl {q : String} {praw : PerceptionRaw} {st st2 : LoopState}
    (h : perceiveDecode q praw st = Sum.inl st2) :
    pyStartsWith st2.finalAnswer "FINAL_ANSWER:" = true := by
  cases praw with
  | res p => simp [perceiveDecode] at h
  | text s =>
    unfold perceiveDecode at h
    dsimp only at h
    split at h
    · cases h; assumption
    · split at h
      · cases h
        exact (by decide : pyStartsWith noResultAnswer "FINAL_ANSWER:" = true)
      · split at h
        · cases h
          exact (by decide : pyStartsWith noResultAnswer "FINAL_ANSWER:" = true)
        · split at h <;> cases h

/-- The verification chain does not touch the final answer or the
dispatch log. -/
theorem verifyChain_proj (t : String) (r : RVal) (st : LoopState) :
    (verifyChain t r st).finalAnswer = st.finalAnswer ∧
    (verifyChain t r st).dispatchLog = st.dispatchLog := by
  unfold verifyChain verify_search_completed verify_sheet_created verify_data_added
    verify_link_retrieved
  dsimp only
  constructor <;> (repeat' split) <;> rfl

set_option maxHeartbeats 1000000 in
/-- The guidance computation does not touch the final answer or the
dispatch log. -/
theorem guidanceOf_proj (a : Args) (t : String) (r : RVal) (st : LoopState) :
    ((guidanceOf a t r st).1).finalAnswer = st.finalAnswer ∧
    ((guidanceOf a t r st).1).dispatchLog = st.dispatchLog := by
  unfold guidanceOf
  dsimp only
  constructor <;> (repeat' split) <;> rfl

/-- The success path leaves the dispatch log untouched, and its outcome
state's final answer is the input's or the synthesized success answer. -/
theorem successPath_proj (env : Env) (i : Nat) (t : String) (a : Args) (r : RVal)
    (st : LoopState) :
    (execStates (successPath env i t a r st)).dispatchLog = st.dispatchLog ∧
    ((execStates (successPath env i t a r st)).finalAnswer = st.finalAnswer ∨
      pyStartsWith (execStates (successPath env i t a r st)).finalAnswer "FINAL_ANSWER:" = true) := by
  have hv := verifyChain_proj t r st
  have hg := guidanceOf_proj a t r
  unfold successPath
  simp only []
  split
  · exact ⟨hv.2, Or.inr (successAnswer_starts _)⟩
  · split
    · refine ⟨?_, Or.inl ?_⟩
      · exact (hg _).2.trans hv.2
      · exact (hg _).1.trans hv.1
    · refine ⟨?_, Or.inl ?_⟩
      · exact (hg _).2.trans hv.2
      · exact (hg _).1.trans hv.1

/-- Well-formedness of the dispatch log: every dispatcher invocation
happened with a per-fingerprint attempt count of at most 3, and never
for a sheet-creation tool while a sheet id was stored. -/
def logOk (st : LoopState) : Prop :=
  ∀ r ∈ st.dispatchLog, r.attempt ≤ 3 ∧
    (containsSub "create_google_sheet" (pyLower r.tool) = true → r.sheetIdAtCall = "")

/-- Transport of `logOk` along an equality of dispatch logs. -/
theorem logOk_of_eq {s1 s2 : LoopState} (h : s1.dispatchLog = s2.dispatchLog)
    (h2 : logOk s2) : logOk s1 := by
  unfold logOk at *
  rw [h]
  exact h2

/-- The combined run invariant: the final answer is empty or
marker-prefixed, and the dispatch log is well-formed. -/
def stInv (st : LoopState) : Prop := faOk st ∧ logOk st

/-- The duplicate-creation branch changes neither the final answer nor
the dispatch log. -/
theorem dedupBranch_proj (env : Env) (i : Nat) (t : String) (a : Args) (st : LoopState) :
    (execStates (dedupBranch env i t a st)).finalAnswer = st.finalAnswer ∧
    (execStates (dedupBranch env i t a st)).dispatchLog = st.dispatchLog :=
  ⟨rfl, rfl⟩

/-- The post-loop-detection execution preserves the run invariant. -/
theorem execAfterLoopCheck_inv (env : Env) (i : Nat) (t : String) (a : Args)
    (st : LoopState) (h : stInv st) : stInv (execStates (execAfterLoopCheck env i t a st)) := by
  obtain ⟨hfa, hl⟩ := h
  unfold execAfterLoopCheck
  simp only []
  split
  · exact ⟨hfa, hl⟩
  · next hguard =>
    split
    · next hcap => exact ⟨hfa, hl⟩
    · next hcap =>
      have hsheet : containsSub "create_google_sheet" (pyLower t) = true →
          st.createdSheetId = "" := by
        intro hc
        by_contra hne
        exact hguard ⟨hc, hne⟩
      have hcnt : (aGet (fingerprintOf t a) st.toolCallAttempts).getD 0 + 1 ≤ 3 := by
        omega
      split
      · next robj hd =>
        constructor
        · rcases (successPath_proj env i t a robj _).2 with he | hs
          · unfold faOk at *
            rw [he]
            exact hfa
          · exact Or.inr hs
        · refine logOk_of_eq (successPath_proj env i t a robj _).1 ?_
          intro r hr
          rcases List.mem_append.mp hr with hold | hnew
          · exact hl r hold
          · rcases List.mem_singleton.mp hnew with rfl
            exact ⟨hcnt, hsheet⟩
      · next msg hd =>
        refine ⟨hfa, ?_⟩
        intro r hr
        rcases List.mem_append.mp hr with hold | hnew
        · exact hl r hold
        · rcases List.mem_singleton.mp hnew with rfl
          exact ⟨hcnt, hsheet⟩

/-- The whole execution phase preserves the run invariant. -/
theorem execPhase_inv (env : Env) (i : Nat) (plan : String) (st : LoopState)
    (h : stInv st) : stInv (execStates (execPhase env i plan st)) := by
  obtain ⟨hfa, hl⟩ := h
  unfold execPhase
  simp only []
  split
  · exact ⟨hfa, hl⟩
  · split
    · split
      · exact ⟨Or.inr (abortAnswer_starts _ _), hl⟩
      · exact ⟨hfa, hl⟩
    · split
      · split
        · exact ⟨Or.inr (loopAnswer_starts _), hl⟩
        · exact execAfterLoopCheck_inv env i _ _ _ ⟨hfa, hl⟩
      · exact execAfterLoopCheck_inv env i _ _ _ ⟨hfa, hl⟩

/-- The terminal-proposal gate preserves the run invariant. -/
theorem decideGate_inv (env : Env) (plan : String) (st : LoopState)
    (h : stInv st) : stInv (stepStates (decideGate env plan st)) := by
  obtain ⟨hfa, hl⟩ := h
  unfold decideGate
  simp only []
  split
  · exact ⟨hfa, hl⟩
  · split
    · next l hlast =>
      refine ⟨Or.inr ?_, hl⟩
      have hmem := List.mem_of_mem_getLast? hlast
      exact (List.mem_filter.mp hmem).2
    · exact ⟨Or.inr (successAnswer_starts _), hl⟩

/-- The per-step failure handler preserves the run invariant. -/
theorem failureHandler_inv (env : Env) (i : Nat) (msg : String) (st : LoopState)
    (h : stInv st) : stInv (stepStates (failureHandler env i msg st)) := by
  obtain ⟨hfa, hl⟩ := h
  unfold failureHandler
  simp only []
  split
  · exact ⟨Or.inr (abortAnswer_starts _ _), hl⟩
  · split
    · exact ⟨hfa, hl⟩
    · exact ⟨hfa, hl⟩

/-- A perception-phase stop carries a marker-prefixed answer and leaves
the dispatch log untouched. -/
theorem perceiveDecode_inl_log {q : String} {praw : PerceptionRaw} {st st2 : LoopState}
    (h : perceiveDecode q praw st = Sum.inl st2) :
    st2.dispatchLog = st.dispatchLog := by
  cases praw with
  | res p => simp [perceiveDecode] at h
  | text s =>
    unfold perceiveDecode at h
    dsimp only at h
    split at h
    · cases h; rfl
    · split at h
      · cases h; rfl
      · split at h
        · cases h; rfl
        · split at h <;> cases h

/-- One loop iteration preserves the run invariant. -/
theorem runStep_inv (env : Env) (i : Nat) (st : LoopState) (out : StepOut)
    (h : runStep env i st = .ok out) (hi : stInv st) : stInv (stepStates out) := by
  obtain ⟨hfa, hl⟩ := hi
  unfold runStep at h
  simp only [] at h
  split at h
  · cases h
  · split at h
    · next st2 hpp =>
      cases h
      unfold perceivePhase at hpp
      split at hpp
      · next hdec =>
        cases hpp
        refine ⟨Or.inr (perceiveDecode_inl hdec), ?_⟩
        exact logOk_of_eq (perceiveDecode_inl_log hdec) hl
      · cases hpp
    · next p hpp =>
      split at h
      · cases h
      · next plan hpl =>
        split at h
        · cases h
          exact decideGate_inv env _ _ ⟨hfa, hl⟩
        · split at h
          · cases h
            exact ⟨Or.inr (partialAnswer_starts _), hl⟩
          · split at h
            · next s hep =>
              cases h
              have he := execPhase_inv env i plan
                { st with stepIdx := i, currentPerception := some p,
                          plannerCalls := st.plannerCalls + 1 } ⟨hfa, hl⟩
              rw [hep] at he
              exact he
            · next s hep =>
              cases h
              have he := execPhase_inv env i plan
                { st with stepIdx := i, currentPerception := some p,
                          plannerCalls := st.plannerCalls + 1 } ⟨hfa, hl⟩
              rw [hep] at he
              exact he
            · next msg s hep =>
              cases h
              have he := execPhase_inv env i plan
                { st with stepIdx := i, currentPerception := some p,
                          plannerCalls := st.plannerCalls + 1 } ⟨hfa, hl⟩
              rw [hep] at he
              exact failureHandler_inv env i msg s he

/-- The loop over remaining step indices preserves the run invariant. -/
theorem runIters_inv (env : Env) :
    ∀ (l : List Nat) (st st' : LoopState), stInv st →
      runIters env l st = .ok st' → stInv st' := by
  intro l
  induction l with
  | nil =>
    intro st st' hP h
    simp only [runIters] at h
    cases h
    exact hP
  | cons i rest ih =>
    intro st st' hP h
    simp only [runIters] at h
    split at h
    · cases h
    · next st2 hrs =>
      cases h
      exact runStep_inv env i st _ hrs hP
    · next st2 hrs =>
      exact ih st2 st' (runStep_inv env i st _ hrs hP) h

/-- The final state of a completed run satisfies the run invariant. -/
theorem runSt_inv (env : Env) (st : LoopState) (h : runSt env = .ok st) : stInv st := by
  refine runIters_inv env _ _ _ ?_ h
  constructor
  · exact Or.inl rfl
  · intro r hr
    cases hr

/-! ### Concrete sessions used as evidence -/

/-- A minimal structured perception record, as the external extractor
returns one. -/
def basicP : Perception :=
  { user_input := "u", intent := none, entities := [], tool_hint := none,
    scope_limit := none, scope_type := none }

/-- A session whose planner proposes the identical tool call at every
step and whose dispatches all succeed. -/
def envRepeat : Env where
  userInput := "task"
  sessionId := "s"
  maxSteps := 6
  tools := []
  perception := fun _ => .ok (.res basicP)
  plan := fun _ => .ok "FUNCTION_CALL: ping|a=1"
  dispatch := fun _ => .ok (.rstr "ok")

/-- The fingerprint of the repeated call of `envRepeat`. -/
def fpPing : String := "ping_" ++ obrace ++ "'a': 1" ++ cbrace

/-- The planner script of `envSuccess`: search twice, create the sheet,
add data twice, fetch the link, then keep proposing an unrelated call —
never a terminal answer. -/
def plansSuccess : Nat → String
  | 0 => "FUNCTION_CALL: search|query=\"x\""
  | 1 => "FUNCTION_CALL: search|query=\"y\""
  | 2 => "FUNCTION_CALL: create_google_sheet|input.title=\"T\""
  | 3 => "FUNCTION_CALL: add_data_to_sheet|input.sheet_id=\"S1\"|input.data=\"rows\""
  | 4 => "FUNCTION_CALL: add_data_to_sheet|input.sheet_id=\"S1\"|input.data=\"rows2\""
  | 5 => "FUNCTION_CALL: get_sheet_link|input.sheet_id=\"S1\""
  | _ => "FUNCTION_CALL: ping|a=1"

/-- The backend script of `envSuccess`. -/
def dispSuccess : Nat → Except String RVal
  | 0 => .ok (.rstr "found result one two three")
  | 1 => .ok (.rstr "found result four five six")
  | 2 => .ok (.rdict [("sheet_id", "S1"), ("sheet_url", "https://u"), ("markdown", "created")])
  | 3 => .ok (.rdict [("markdown", "ok"), ("updated_cells", "5")])
  | 4 => .ok (.rdict [("markdown", "ok2"), ("updated_cells", "5")])
  | 5 => .ok (.rdict [("link", "https://docs.google.com/spreadsheets/d/S1/edit"), ("markdown", "L")])
  | _ => .ok (.rstr "ok")

/-- A session that completes the whole workflow without the planner ever
proposing a terminal answer. -/
def envSuccess : Env where
  userInput := "task"
  sessionId := "s"
  maxSteps := 10
  tools := []
  perception := fun _ => .ok (.res basicP)
  plan := fun k => .ok (plansSuccess k)
  dispatch := dispSuccess

/-- A session whose planner proposes the identical sheet creation at
every step; the first creation succeeds and stores a sheet id. -/
def envDedup : Env where
  userInput := "task"
  sessionId := "s"
  maxSteps := 5
  tools := []
  perception := fun _ => .ok (.res basicP)
  plan := fun _ => .ok "FUNCTION_CALL: create_google_sheet|input.title=\"T\""
  dispatch := fun _ => .ok (.rdict [("sheet_id", "S1"), ("sheet_url", "https://u"), ("markdown", "created")])

/-- A session whose planner returns an unparsable action line at every
step (`max_steps = 3`); every execution phase fails with a parse error. -/
def envRetry : Env where
  userInput := "task"
  sessionId := "s"
  maxSteps := 3
  tools := []
  perception := fun _ => .ok (.res basicP)
  plan := fun _ => .ok "CALL: x"
  dispatch := fun _ => .ok (.rstr "ok")

/-- A session whose perception extractor raises at step 0. -/
def envErr : Env where
  userInput := "task"
  sessionId := "s"
  maxSteps := 3
  tools := []
  perception := fun _ => .error "perception raised"
  plan := fun _ => .ok "CALL: x"
  dispatch := fun _ => .ok (.rstr "ok")

/-! ### C3 -/

/-- C3: `AgentLoop.run` never propagates an exception raised inside the
step loop body: an exception escaping an iteration (only the external
collaborators can raise one, every execution-phase exception being
caught by the per-step handler) is caught once at the outer boundary and
turned into the generic failure answer, and `run` always returns a
non-empty string beginning with the terminal marker. -/
theorem C3_run_always_terminal (env : Env) :
    pyStartsWith (runAgent env) "FINAL_ANSWER:" = true ∧
    runAgent env ≠ "" ∧
    (∀ e, runSt env = .error e → runAgent env = genericFailureAnswer) := by
  have hstart : pyStartsWith (runAgent env) "FINAL_ANSWER:" = true := by
    unfold runAgent
    split
    · decide
    · next st hok =>
      have hinv := runSt_inv env st hok
      simp only []
      by_cases h1 : st.finalAnswer = ""
      · rw [if_pos h1]
        by_cases h2 : completionFallbackAnswer st = ""
        · rw [if_pos h2]; decide
        · rw [if_neg h2]; exact completionFallbackAnswer_starts st
      · rw [if_neg h1, if_neg h1]
        rcases hinv.1 with h | h
        · exact absurd h h1
        · exact h
  refine ⟨hstart, ?_, ?_⟩
  · intro h0
    rw [h0] at hstart
    exact absurd hstart (by decide)
  · intro e he
    unfold runAgent
    rw [he]

/-- Witness for C3: a session whose perception extractor raises at step
0 still returns the generic marker-prefixed failure answer. -/
theorem C3_witness :
    pyStartsWith (runAgent envErr) "FINAL_ANSWER:" = true ∧
    runAgent envErr ≠ "" ∧
    runAgent envErr = genericFailureAnswer :=
  ⟨(C3_run_always_terminal envErr).1, (C3_run_always_terminal envErr).2.1,
    (C3_run_always_terminal envErr).2.2 "perception raised" rfl⟩

/-! ### C7 and C8 -/

/-- C7: parsing an action line with parameter segments `a.b=1` and
`a.c=2` yields the nested argument map where `a` maps to the merged
inner map with both `b` and `c`: dotted keys build nested maps and a
repeated dotted prefix merges into the existing sibling map rather than
overwriting it. -/
theorem C7_dotted_keys_merge :
    parse_function_call "FUNCTION_CALL: t|a.b=1|a.c=2" =
      .ok ("t", [("a", .vdict [("b", .vint 1), ("c", .vint 2)])]) := rfl

/-- Lookup after an association-list update. -/
theorem aGet_aSet {α : Type} (k k2 : String) (v : α) (m : List (String × α)) :
    aGet k (aSet k2 v m) = if k2 = k then some v else aGet k m := by
  induction m with
  | nil => simp [aGet, aSet]
  | cons p rest ih =>
    obtain ⟨k3, v3⟩ := p
    by_cases h : k3 = k2
    · subst h
      simp only [aSet, if_pos rfl, aGet]
      by_cases h2 : k3 = k <;> simp [h2]
    · simp only [aSet, if_neg h, aGet]
      by_cases h2 : k3 = k
      · subst h2
        have : ¬ k2 = k3 := fun hc => h hc.symm
        simp [this]
      · simp [h2, ih]

/-- Registering a tool list preserves the presence of any key. -/
theorem aGet_isSome_foldl_aSet (k s : String) :
    ∀ (names : List String) (m : List (String × String)),
      (aGet k m).isSome = true →
      (aGet k (names.foldl (fun m2 n => aSet n s m2) m)).isSome = true := by
  intro names
  induction names with
  | nil => intro m h; exact h
  | cons n rest ih =>
    intro m h
    simp only [List.foldl_cons]
    refine ih _ ?_
    rw [aGet_aSet]
    by_cases h2 : n = k <;> simp [h2, h]

/-- Processing one backend preserves the presence of any key. -/
theorem aGet_isSome_mcpStep (k : String) (m : List (String × String)) (b : MBackend)
    (h : (aGet k m).isSome = true) : (aGet k (mcpStep m b)).isSome = true := by
  unfold mcpStep
  split
  · exact h
  · exact aGet_isSome_foldl_aSet k _ _ m h

/-- Scanning further backends preserves the presence of any key. -/
theorem aGet_isSome_foldl_mcpStep (k : String) :
    ∀ (bs : List MBackend) (m : List (String × String)),
      (aGet k m).isSome = true →
      (aGet k (bs.foldl mcpStep m)).isSome = true := by
  intro bs
  induction bs with
  | nil => intro m h; exact h
  | cons b rest ih =>
    intro m h
    simp only [List.foldl_cons]
    exact ih _ (aGet_isSome_mcpStep k m b h)

/-- `call_tool` finds a backend exactly when the name is registered. -/
theorem mcpLookup_isOk (m : List (String × String)) (n : String) :
    (mcpLookup m n).isOk = true ↔ (aGet n m).isSome = true := by
  unfold mcpLookup
  cases h : aGet n m <;> simp [Except.isOk, Except.toBool]

/-- C8: if discovery against one backend raises during
`MultiMCP.initialize`, that backend contributes zero entries (the
resulting tool map equals the one built without it), `initialize` itself
returns normally (it is total by construction), and every tool
registered from the backends scanned before the failing one remains
registered and callable afterward. -/
theorem C8_discovery_isolation (pre post : List MBackend) (b : MBackend) (e : String)
    (hb : b.disc = .error e) :
    mcpInitializeMap (pre ++ b :: post) = mcpInitializeMap (pre ++ post) ∧
    (∀ n, (mcpLookup (mcpInitializeMap pre) n).isOk = true →
      (mcpLookup (mcpInitializeMap (pre ++ b :: post)) n).isOk = true) := by
  have hstep : ∀ m, mcpStep m b = m := by
    intro m
    unfold mcpStep
    rw [hb]
  constructor
  · unfold mcpInitializeMap
    rw [List.foldl_append, List.foldl_append, List.foldl_cons, hstep]
  · intro n h
    rw [mcpLookup_isOk] at h ⊢
    unfold mcpInitializeMap at h ⊢
    rw [List.foldl_append, List.foldl_cons, hstep]
    exact aGet_isSome_foldl_mcpStep n post _ h

/-- Witness for C8 at a concrete configuration: a failing middle backend
contributes nothing and the first backend's tool stays callable. -/
theorem C8_witness :
    mcpInitializeMap
        [⟨"a.py", .ok ["search"]⟩, ⟨"b.py", .error "timeout"⟩, ⟨"c.py", .ok ["send"]⟩] =
      mcpInitializeMap [⟨"a.py", .ok ["search"]⟩, ⟨"c.py", .ok ["send"]⟩] ∧
    (mcpLookup
        (mcpInitializeMap
          [⟨"a.py", .ok ["search"]⟩, ⟨"b.py", .error "timeout"⟩, ⟨"c.py", .ok ["send"]⟩])
        "search").isOk = true := by
  have h := C8_discovery_isolation [⟨"a.py", .ok ["search"]⟩] [⟨"c.py", .ok ["send"]⟩]
    ⟨"b.py", .error "timeout"⟩ "timeout" rfl
  exact ⟨h.1, h.2 "search" (by decide)⟩

/-! ### C1 -/

/-- A loop state with all four workflow gate flags satisfied. -/
def stGateAll : LoopState :=
  { initState envRepeat with wfSearch := true, wfSheet := true, wfData := true, wfLink := true }

/-- A plan that contains the terminal marker, but on a line that does
not begin with it. -/
def planMidMarker : String := "note FINAL_ANSWER: yes"

/-- Counterexample to C1 as stated: with all four gate flags true and a
plan containing the terminal marker only mid-line, no line of the plan
begins with the marker, and the loop stops storing the synthesized
success answer — not "the last line of the plan beginning with the
terminal marker" (no such line exists, and the stored answer differs
from every line of the plan). -/
theorem C1_counterexample :
    containsSub "FINAL_ANSWER:" planMidMarker = true ∧
    allVerified stGateAll = true ∧
    ((pySplit (Char.ofNat 10) planMidMarker).filter
      (fun l => pyStartsWith (pyStrip l) "FINAL_ANSWER:")) = [] ∧
    decideGate envRepeat planMidMarker stGateAll =
      .stop { stGateAll with finalAnswer :=
        "FINAL_ANSWER: [Task completed successfully. Google Sheet created with the requested data.]" } ∧
    (∀ l ∈ pySplit (Char.ofNat 10) planMidMarker,
      pyStrip l ≠ "FINAL_ANSWER: [Task completed successfully. Google Sheet created with the requested data.]") :=
  ⟨by decide, by decide, rfl, rfl, by decide⟩

/-- C1 amended: while any gate flag is false, a terminal proposal is
rejected and the loop continues with the corrective query, which names
every missing step; once all four flags are true the loop stops, storing
the last plan line beginning with the marker when one exists, and the
synthesized success answer otherwise. -/
theorem C1_gate_amended (env : Env) (plan : String) (st : LoopState) :
    (allVerified st = false →
      decideGate env plan st =
        .cont { st with query := rejectionQuery env.userInput (missingSteps st) }) ∧
    (∀ m ∈ missingSteps st,
      containsSub m (rejectionQuery env.userInput (missingSteps st)) = true) ∧
    (allVerified st = true → ∀ l,
      ((pySplit (Char.ofNat 10) plan).filter
        (fun l2 => pyStartsWith (pyStrip l2) "FINAL_ANSWER:")).getLast? = some l →
      decideGate env plan st = .stop { st with finalAnswer := pyStrip l }) ∧
    (allVerified st = true →
      ((pySplit (Char.ofNat 10) plan).filter
        (fun l2 => pyStartsWith (pyStrip l2) "FINAL_ANSWER:")) = [] →
      decideGate env plan st = .stop { st with finalAnswer := successAnswer st }) := by
  refine ⟨?_, ?_, ?_, ?_⟩
  · intro hv
    simp [decideGate, hv]
  · intro m hm
    unfold rejectionQuery
    exact containsSub_append_left _ (containsSub_append_right _ (containsSub_joinComma hm))
  · intro hv l hlast
    unfold decideGate
    rw [if_neg (by simp [hv])]
    simp only []
    rw [hlast]
  · intro hv hnone
    unfold decideGate
    rw [if_neg (by simp [hv])]
    simp only []
    rw [hnone]
    rfl

/-- Witness for C1 amended: with no flag satisfied a terminal proposal
is rejected with the corrective query naming the missing steps; with all
flags satisfied the last marker line is stored and the loop stops. -/
theorem C1_witness :
    decideGate envRepeat "x FINAL_ANSWER: [done]" (initState envRepeat) =
      .cont { initState envRepeat with
        query := rejectionQuery "task"
          ["search_completed", "sheet_created", "data_added", "link_retrieved"] } ∧
    containsSub "sheet_created"
      (rejectionQuery "task"
        ["search_completed", "sheet_created", "data_added", "link_retrieved"]) = true ∧
    decideGate envRepeat "FINAL_ANSWER: [done]" stGateAll =
      .stop { stGateAll with finalAnswer := "FINAL_ANSWER: [done]" } :=
  ⟨(C1_gate_amended envRepeat "x FINAL_ANSWER: [done]" (initState envRepeat)).1 (by decide),
   (C1_gate_amended envRepeat "x FINAL_ANSWER: [done]" (initState envRepeat)).2.1
     "sheet_created" (by decide),
   (C1_gate_amended envRepeat "FINAL_ANSWER: [done]" stGateAll).2.2.1 (by decide)
     "FINAL_ANSWER: [done]" (by decide)⟩

/-! ### C4 -/

/-- Evidence for C4 (code bug): in `envRetry` the first EXECUTE failure
takes the retry branch (the next query is the error-annotated retry
query, the per-step retry counter for `step_0` is 1, both below the
caps) — yet the `continue` advances the `for` variable, so the next
iteration runs step index 1 and the later failure increments the
distinct key `step_1`; no per-step counter ever reaches the cap of 3,
and the session ends by the step budget after one failure per index. -/
theorem C4_retry_advances_step :
    (match runStep envRetry 0 (initState envRetry) with
     | .ok (.cont s) => some (s.query, s.stepRetryCount, s.consecutiveFailures)
     | _ => none) =
      some (retryQuery "task" "Invalid function call format.", [("step_0", 1)], 1) ∧
    (runSt envRetry).map
      (fun st => (st.stepRetryCount, st.consecutiveFailures,
        pyStartsWith st.finalAnswer "FINAL_ANSWER: [Task partially completed due to step limit.")) =
      .ok ([("step_0", 1), ("step_1", 1)], 2, true) ∧
    (∀ k, envRetry.plan k = .ok "CALL: x") :=
  ⟨rfl, rfl, fun _ => rfl⟩

/-! ### C2 -/

/-- Counterexample to C2 as stated: in `envRepeat` the planner proposes
the identical `(tool_name, fingerprint)` call at every one of six steps
and every dispatch succeeds; five identical calls are dispatched (so a
fourth identical dispatch happens) and the session never terminates with
a loop-detected diagnostic — the repeat counter is reset to 0 after each
successful execution (core/loop.py line 614). -/
theorem C2_counterexample :
    (∀ k, envRepeat.plan k = .ok "FUNCTION_CALL: ping|a=1") ∧
    (runSt envRepeat).map
      (fun st => ((st.dispatchLog.filter (fun r => r.fp = fpPing)).length,
        containsSub "Infinite loop detected" st.finalAnswer)) = .ok (5, false) :=
  ⟨fun _ => rfl, rfl⟩

/-- C2 amended: when no successful execution intervenes (the state still
records one unreset repeat, i.e. the incoming proposal is the third
consecutive identical one), the execution phase stops with the
loop-detected terminal answer and dispatches nothing — so termination is
forced before a third identical dispatch. -/
theorem C2_loop_detection_amended (env : Env) (i : Nat) (st : LoopState)
    (plan toolName : String) (args : Args)
    (hparse : parse_function_call plan = .ok (toolName, args))
    (hretry : (aGet ("step_" ++ natRepr i) st.stepRetryCount).getD 0 < 3)
    (hlast : st.lastToolCall = some (fingerprintOf toolName args))
    (hrep : st.repeatedCalls = 1) :
    execPhase env i plan st =
      .stopE { st with
        repeatedCalls := st.repeatedCalls + 1
        finalAnswer := loopAnswer { st with repeatedCalls := st.repeatedCalls + 1 } } ∧
    containsSub "Infinite loop detected"
      (loopAnswer { st with repeatedCalls := st.repeatedCalls + 1 }) = true ∧
    (execStates (execPhase env i plan st)).dispatchLog = st.dispatchLog := by
  have h1 : execPhase env i plan st =
      .stopE { st with
        repeatedCalls := st.repeatedCalls + 1
        finalAnswer := loopAnswer { st with repeatedCalls := st.repeatedCalls + 1 } } := by
    unfold execPhase
    rw [hparse]
    simp only []
    rw [if_neg (by omega)]
    rw [if_pos hlast]
    have hcond : ({ st with repeatedCalls := st.repeatedCalls + 1 } : LoopState).repeatedCalls ≥ 2 := by
      change st.repeatedCalls + 1 ≥ 2
      omega
    rw [if_pos hcond]
  refine ⟨h1, ?_, ?_⟩
  · exact containsSub_append_left _ (containsSub_append_left _ (by decide))
  · rw [h1]
    rfl

/-- A state recording two consecutive identical unreset `ping`
proposals. -/
def stRep : LoopState :=
  { initState envRepeat with lastToolCall := some fpPing, repeatedCalls := 1 }

/-- Witness for C2 amended at a concrete third identical proposal. -/
theorem C2_witness :
    execPhase envRepeat 0 "FUNCTION_CALL: ping|a=1" stRep =
      .stopE { stRep with
        repeatedCalls := 2
        finalAnswer := loopAnswer { stRep with repeatedCalls := 2 } } ∧
    containsSub "Infinite loop detected"
      (loopAnswer { stRep with repeatedCalls := 2 }) = true ∧
    (execStates (execPhase envRepeat 0 "FUNCTION_CALL: ping|a=1" stRep)).dispatchLog =
      stRep.dispatchLog :=
  C2_loop_detection_amended envRepeat 0 stRep "FUNCTION_CALL: ping|a=1" "ping"
    [("a", .vint 1)] rfl (by decide) rfl rfl

/-! ### C5 -/

/-- Counterexample to C5 as stated: in `envRepeat` the cumulative number
of dispatcher invocations for the single fingerprint reaches 5, beyond
`max_tool_attempts` (3) — the per-fingerprint counter is reset to 0 on
every success (core/loop.py line 458), so successful calls accumulate
without bound. -/
theorem C5_counterexample :
    (runSt envRepeat).map
      (fun st => (st.dispatchLog.filter (fun r => r.fp = fpPing)).length) = .ok 5 ∧
    (∀ k, envRepeat.dispatch k = .ok (.rstr "ok")) :=
  ⟨rfl, fun _ => rfl⟩

/-- C5 amended: the per-fingerprint counter counts attempts since that
fingerprint's last successful dispatch; every dispatcher invocation in
any completed run happens with this counter at most 3, and an attempt
arriving with the counter already at the cap fails hard (the cap
exception is raised after the increment) without the dispatcher being
invoked. -/
theorem C5_attempts_amended :
    (∀ env st, runSt env = .ok st → ∀ r ∈ st.dispatchLog, r.attempt ≤ 3) ∧
    (∀ (env : Env) (i : Nat) (toolName : String) (args : Args) (st : LoopState),
      ¬ (containsSub "create_google_sheet" (pyLower toolName) = true ∧
          st.createdSheetId ≠ "") →
      (aGet (fingerprintOf toolName args) st.toolCallAttempts).getD 0 ≥ 3 →
      execAfterLoopCheck env i toolName args st =
        .raised (capMsg toolName)
          { st with toolCallAttempts := aSet (fingerprintOf toolName args) ((aGet (fingerprintOf toolName args) st.toolCallAttempts).getD 0 + 1) st.toolCallAttempts } ∧
      (execStates (execAfterLoopCheck env i toolName args st)).dispatchLog =
        st.dispatchLog) := by
  constructor
  · intro env st h r hr
    exact ((runSt_inv env st h).2 r hr).1
  · intro env i toolName args st hguard hcap
    have h1 : execAfterLoopCheck env i toolName args st =
        .raised (capMsg toolName)
          { st with toolCallAttempts := aSet (fingerprintOf toolName args) ((aGet (fingerprintOf toolName args) st.toolCallAttempts).getD 0 + 1) st.toolCallAttempts } := by
      unfold execAfterLoopCheck
      rw [if_neg hguard]
      simp only []
      rw [if_pos (by omega)]
    refine ⟨h1, ?_⟩
    rw [h1]
    rfl

/-- The final state of the `envRepeat` session. -/
def stRepeatFinal : LoopState :=
  ((runSt envRepeat).toOption).getD (initState envRepeat)

/-- A state whose attempt counter for the `ping` fingerprint is at the
cap. -/
def stCap : LoopState :=
  { initState envRepeat with toolCallAttempts := [(fpPing, 3)] }

/-- Witness for C5 amended: in the concrete `envRepeat` run every
dispatch happened with the counter at most 3, and at a state with the
counter at the cap the next identical attempt raises the cap exception
without dispatching. -/
theorem C5_witness :
    (∀ r ∈ stRepeatFinal.dispatchLog, r.attempt ≤ 3) ∧
    execAfterLoopCheck envRepeat 0 "ping" [("a", .vint 1)] stCap =
      .raised (capMsg "ping")
        { stCap with toolCallAttempts := aSet fpPing 4 stCap.toolCallAttempts } ∧
    (execStates (execAfterLoopCheck envRepeat 0 "ping" [("a", .vint 1)] stCap)).dispatchLog =
      stCap.dispatchLog := by
  refine ⟨fun r hr => (C5_attempts_amended.1 envRepeat stRepeatFinal rfl r hr), ?_, ?_⟩
  · exact (C5_attempts_amended.2 envRepeat 0 "ping" [("a", .vint 1)] stCap
      (by decide) (by decide)).1
  · exact (C5_attempts_amended.2 envRepeat 0 "ping" [("a", .vint 1)] stCap
      (by decide) (by decide)).2

/-! ### C9 -/

/-- Counterexample to C9 as stated: in `envDedup` the first sheet
creation succeeds and stores sheet id `S1`; the second identical
proposal takes the dedup branch (memory grows to 2 items); but the
third identical proposal — still a `create_google_sheet` action with a
stored sheet id — is preempted by the repeated-call detection: the run
stops with the loop-detected answer, no synthesized result is appended
(the trace stays at 2 items) and the loop does not continue with a
corrective query.  The dispatcher is still not invoked (1 dispatch in
total). -/
theorem C9_counterexample :
    (runIters envDedup [0, 1] (initState envDedup)).map
      (fun st => (st.createdSheetId, st.memoryTrace.length, st.dispatchLog.length)) =
      .ok ("S1", 2, 1) ∧
    (runSt envDedup).map
      (fun st => (containsSub "Infinite loop detected" st.finalAnswer,
        st.memoryTrace.length, st.dispatchLog.length)) = .ok (true, 2, 1) ∧
    envDedup.plan 2 = .ok "FUNCTION_CALL: create_google_sheet|input.title=\"T\"" :=
  ⟨rfl, rfl, rfl⟩

/-- C9 amended: when a parsed `create_google_sheet` action reaches the
duplicate-creation check with a stored sheet id (i.e. loop detection has
not already fired at this step), the dispatcher is not invoked: the loop
synthesizes a success result with the stored id and url, appends it to
memory as a `tool_output` item, marks the step completed and continues
with the corrective query.  In every completed run, the dispatcher is
never invoked for a `create_google_sheet` tool while a sheet id is
stored. -/
theorem C9_dedup_amended :
    (∀ (env : Env) (i : Nat) (toolName : String) (args : Args) (st : LoopState),
      containsSub "create_google_sheet" (pyLower toolName) = true →
      st.createdSheetId ≠ "" →
      execAfterLoopCheck env i toolName args st =
        .contE { st with
          memoryTrace := st.memoryTrace ++
            [{ text := memoryText toolName args (jsonDumpsFlat
                [("sheet_id", st.createdSheetId),
                 ("sheet_url", if st.createdSheetUrl ≠ "" then st.createdSheetUrl else "https://docs.google.com/spreadsheets/d/" ++ st.createdSheetId ++ "/edit"),
                 ("message", "Using existing sheet (duplicate creation prevented)")])
               type := "tool_output"
               toolName := toolName
               userQuery := env.userInput
               tags := [toolName]
               sessionId := env.sessionId }]
          completedSteps := addIfAbsent ("step_" ++ natRepr i) st.completedSteps
          stepRetryCount := aSet ("step_" ++ natRepr i) 0 st.stepRetryCount
          query := dedupQuery env.userInput st.createdSheetId } ∧
      (execStates (execAfterLoopCheck env i toolName args st)).dispatchLog =
        st.dispatchLog) ∧
    (∀ env st, runSt env = .ok st → ∀ r ∈ st.dispatchLog,
      containsSub "create_google_sheet" (pyLower r.tool) = true →
      r.sheetIdAtCall = "") := by
  constructor
  · intro env i toolName args st hc hid
    have h1 : execAfterLoopCheck env i toolName args st =
        dedupBranch env i toolName args st := by
      unfold execAfterLoopCheck
      rw [if_pos ⟨hc, hid⟩]
    refine ⟨?_, ?_⟩
    · rw [h1]
      rfl
    · rw [h1]
      rfl
  · intro env st h r hr hc
    exact ((runSt_inv env st h).2 r hr).2 hc

/-- A state with a stored sheet id, as after a successful creation. -/
def stDedupW : LoopState :=
  { initState envDedup with createdSheetId := "S1", createdSheetUrl := "https://u" }

/-- The final state of the `envDedup` session. -/
def stDedupFinal : LoopState :=
  ((runSt envDedup).toOption).getD (initState envDedup)

/-- The fingerprint of the repeated creation call of `envDedup`. -/
def fpCreate : String :=
  "create_google_sheet_" ++ obrace ++ "'input': " ++ obrace ++ "'title': 'T'" ++ cbrace ++ cbrace

/-- Witness for C9 amended: at a concrete state with a stored sheet id,
a second creation proposal synthesizes a `tool_output` memory item and
continues with the corrective query without dispatching; and the single
dispatched creation of the `envDedup` run happened with no sheet id
stored. -/
theorem C9_witness :
    (match execAfterLoopCheck envDedup 1 "create_google_sheet"
        [("input", .vdict [("title", .vstr "T")])] stDedupW with
     | .contE s => some (s.memoryTrace.map (fun m => m.type), s.query, s.dispatchLog.length)
     | _ => none) = some (["tool_output"], dedupQuery "task" "S1", 0) ∧
    ((⟨"create_google_sheet", fpCreate, 1, ""⟩ : DispatchRec)).sheetIdAtCall = "" := by
  constructor
  · have h := (C9_dedup_amended.1 envDedup 1 "create_google_sheet"
      [("input", .vdict [("title", .vstr "T")])] stDedupW (by decide) (by decide)).1
    rw [h]
    rfl
  · exact C9_dedup_amended.2 envDedup stDedupFinal rfl _ (by decide) (by decide)

/-! ### C10 -/

/-- The step-completion marking applied right after the verification
chain (core/loop.py lines 563-566). -/
def successMark (i : Nat) (st2 : LoopState) : LoopState :=
  { st2 with
    completedSteps := addIfAbsent ("step_" ++ natRepr i) st2.completedSteps
    stepRetryCount := aSet ("step_" ++ natRepr i) 0 st2.stepRetryCount }

/-- C10: immediately after a successful tool execution whose
verification updates leave all four workflow flags true, the success
path stops with the synthesized success answer (before any memory
append); once a step stops, the remaining iterations — and hence any
further planner call — never run; the success answer embeds the sheet
link whenever one is stored or constructible; and the concrete
`envSuccess` session terminates with the success answer after 7 planner
calls although no plan ever contains the terminal marker. -/
theorem C10_early_success_termination :
    (∀ (env : Env) (i : Nat) (toolName : String) (args : Args) (resultObj : RVal)
        (st : LoopState),
      allVerified (successMark i (verifyChain toolName resultObj st)) = true →
      successPath env i toolName args resultObj st =
        .stopE { successMark i (verifyChain toolName resultObj st) with
          finalAnswer := successAnswer (successMark i (verifyChain toolName resultObj st)) }) ∧
    (∀ (env : Env) (i : Nat) (rest : List Nat) (st s : LoopState),
      runStep env i st = .ok (.stop s) → runIters env (i :: rest) st = .ok s) ∧
    (∀ st : LoopState, sheetLinkOf st ≠ "" →
      successAnswer st =
        "FINAL_ANSWER: [Task completed successfully. Google Sheet created with the requested data. Sheet link: " ++
          sheetLinkOf st ++ "]") ∧
    ((runSt envSuccess).map (fun st => (st.finalAnswer, st.plannerCalls)) =
      .ok ("FINAL_ANSWER: [Task completed successfully. Google Sheet created with the requested data. Sheet link: https://docs.google.com/spreadsheets/d/S1/edit]", 7) ∧
     (∀ k, containsSub "FINAL_ANSWER:" (plansSuccess k) = false)) := by
  refine ⟨?_, ?_, ?_, rfl, ?_⟩
  · intro env i toolName args resultObj st h
    unfold successMark at h
    unfold successPath
    simp only []
    rw [if_pos h]
    unfold successMark
    rfl
  · intro env i rest st s h
    unfold runIters
    rw [h]
  · intro st h
    unfold successAnswer
    rw [if_pos h]
  · intro k
    rcases k with _ | _ | _ | _ | _ | _ | k <;> rfl

/-- A state in which search, sheet and data are verified and a pending
sheet link is stored, so a `get_sheet_link` verification completes all
four flags. -/
def stLinkPend : LoopState :=
  { initState envSuccess with
    wfSearch := true
    wfSheet := true
    wfData := true
    pendingSheetLink := "https://x" }

/-- Witness for C10 at a concrete step: the successful `get_sheet_link`
execution completes the gate and the success path stops with the
success answer embedding the link; a stopped step ends the remaining
iterations. -/
theorem C10_witness :
    successPath envSuccess 0 "get_sheet_link" [] (.rdict [("markdown", "L")]) stLinkPend =
      .stopE { successMark 0 (verifyChain "get_sheet_link" (.rdict [("markdown", "L")]) stLinkPend) with
        finalAnswer := successAnswer
          (successMark 0 (verifyChain "get_sheet_link" (.rdict [("markdown", "L")]) stLinkPend)) } ∧
    successAnswer stLinkPend =
      "FINAL_ANSWER: [Task completed successfully. Google Sheet created with the requested data. Sheet link: " ++
        sheetLinkOf stLinkPend ++ "]" ∧
    (runIters envSuccess [9, 10] (initState envSuccess)).map
      (fun st => pyStartsWith st.finalAnswer "FINAL_ANSWER:") = .ok true := by
  refine ⟨?_, ?_, ?_⟩
  · exact C10_early_success_termination.1 envSuccess 0 "get_sheet_link" []
      (.rdict [("markdown", "L")]) stLinkPend (by decide)
  · exact C10_early_success_termination.2.2.1 stLinkPend (by decide)
  · have hb := C10_early_success_termination.2.1 envSuccess 9 [10] (initState envSuccess) _ rfl
    rw [hb]
    rfl

/-! ### C6 -/

/-- The parameter segments of an action line, as `parse_function_call`
computes them (modules/action.py lines 34-36). -/
def parseSegments (line : String) : List String :=
  ((pySplit '|' (String.mk (line.data.drop 14))).map pyStrip).tail

/-- The tool name of an action line. -/
def parseToolName (line : String) : String :=
  ((pySplit '|' (String.mk (line.data.drop 14))).map pyStrip).headD ""

/-- The key of a parameter segment, as cut at the unquoted separator. -/
def segKey (part : String) : String :=
  match findEqPos part with
  | some i => pyStrip (String.mk (part.data.take i))
  | none => ""

/-- The dotted key path of a parameter segment. -/
def segPath (part : String) : List String :=
  pySplit '.' (segKey part)

/-- The value string of a parameter segment, as cut at the unquoted
separator and stripped. -/
def segVal (part : String) : String :=
  match findEqPos part with
  | some i => pyStrip (String.mk (part.data.drop (i + 1)))
  | none => ""

/-- The key path / decoded value pair of a parameter segment. -/
def segPV (part : String) : List String × Value :=
  (segPath part, parseValue (segVal part))

/-- The action line of the C6 counterexample: the marker is present and
every parameter segment has an unquoted separator, yet parsing raises
(the dotted key `a.b` traverses the scalar previously assigned to `a`,
Python's `setdefault` walk then raises). -/
def lineC6 : String := "FUNCTION_CALL: t|a=1|a.b=2"

/-- Counterexample to C6 as stated: a line with the marker prefix in
which every parameter segment has an unquoted `=`, and parsing fails. -/
theorem C6_counterexample :
    pyStartsWith lineC6 "FUNCTION_CALL:" = true ∧
    parseSegments lineC6 = ["a=1", "a.b=2"] ∧
    (∀ p ∈ parseSegments lineC6, (findEqPos p).isSome = true) ∧
    (parse_function_call lineC6).isOk = false :=
  ⟨by decide, rfl, by decide, by decide⟩

/-- Reading a value at a (non-empty) key path, descending only through
dicts. -/
def getPath : List String → Args → Option Value
  | [], _ => none
  | [k], d => aGet k d
  | k :: k2 :: ks, d =>
    match aGet k d with
    | some (.vdict inner) => getPath (k2 :: ks) inner
    | _ => none

/-- An optional value that is absent or a dict (what the `setdefault`
walk of `parse_function_call` tolerates). -/
def noneOrDict : Option Value → Prop
  | none => True
  | some v => v.isDict = true

/-- Nothing is reachable in the empty dict. -/
theorem getPath_nil_dict (p : List String) : getPath p [] = none := by
  cases p with
  | nil => rfl
  | cons k rest => cases rest <;> rfl

/-- Descending one level of `getPath`. -/
theorem getPath_cons (k : String) (pre : List String) (hpre : pre ≠ [])
    (d : Args) (inner : Args) (hk : aGet k d = some (.vdict inner)) :
    getPath (k :: pre) d = getPath pre inner := by
  cases pre with
  | nil => exact absurd rfl hpre
  | cons p1 rest =>
    show (match aGet k d with
          | some (.vdict inner) => getPath (p1 :: rest) inner
          | _ => none) = getPath (p1 :: rest) inner
    rw [hk]

/-- A key path never splits to the empty list. -/
theorem splitChar_ne_nil (sep : Char) (l : List Char) : splitChar sep l ≠ [] := by
  cases l with
  | nil => simp [splitChar]
  | cons c rest =>
    unfold splitChar
    dsimp only
    split
    · simp
    · split <;> simp

/-- `segPath` is never empty. -/
theorem segPath_ne_nil (part : String) : segPath part ≠ [] := by
  unfold segPath pySplit
  intro h
  exact splitChar_ne_nil '.' (segKey part).data (List.map_eq_nil_iff.mp h)

/-- The `setdefault` walk succeeds when every proper non-empty prefix of
the key path reads back absent-or-dict. -/
theorem setPath_isSome (path : List String) (v : Value) :
    ∀ (d : Args), path ≠ [] →
      (∀ pre, pre ≠ [] → pre <+: path → pre ≠ path → noneOrDict (getPath pre d)) →
      (setPath path v d).isSome = true := by
  induction path with
  | nil => intro d h _; exact absurd rfl h
  | cons k rest ih =>
    intro d _ hpre
    cases rest with
    | nil => rfl
    | cons k2 ks =>
      have h1 := hpre [k] (by simp)
        (List.cons_prefix_cons.mpr ⟨rfl, List.nil_prefix⟩) (by simp)
      unfold setPath
      cases hk : aGet k d with
      | none =>
        have hinner := ih [] (by simp) (by
          intro pre hne _ _
          rw [getPath_nil_dict]
          trivial)
        cases hs : setPath (k2 :: ks) v [] with
        | none => rw [hs] at hinner; simp at hinner
        | some d3 => rfl
      | some val =>
        cases val with
        | vdict inner =>
          have hinner := ih inner (by simp) (by
            intro pre hne hp hne2
            have h2 := hpre (k :: pre) (by simp)
              (List.cons_prefix_cons.mpr ⟨rfl, hp⟩)
              (by intro hE; injection hE with _ hE2; exact hne2 hE2)
            rw [getPath_cons k pre hne d inner hk] at h2
            exact h2)
          show (Option.map (fun inner2 => aSet k (Value.vdict inner2) d)
            (setPath (k2 :: ks) v inner)).isSome = true
          cases hs : setPath (k2 :: ks) v inner with
          | none => rw [hs] at hinner; simp at hinner
          | some d3 => rfl
        | vint n =>
          rw [show getPath [k] d = aGet k d from rfl, hk] at h1
          simp [noneOrDict, Value.isDict] at h1
        | vbool b =>
          rw [show getPath [k] d = aGet k d from rfl, hk] at h1
          simp [noneOrDict, Value.isDict] at h1
        | vnone =>
          rw [show getPath [k] d = aGet k d from rfl, hk] at h1
          simp [noneOrDict, Value.isDict] at h1
        | vstr s =>
          rw [show getPath [k] d = aGet k d from rfl, hk] at h1
          simp [noneOrDict, Value.isDict] at h1
        | vlist es =>
          rw [show getPath [k] d = aGet k d from rfl, hk] at h1
          simp [noneOrDict, Value.isDict] at h1

/-- `getPath` only depends on the head key's binding at the first
level. -/
theorem getPath_head_congr (q : String) (tl : List String) (d d' : Args)
    (h : aGet q d = aGet q d') : getPath (q :: tl) d = getPath (q :: tl) d' := by
  cases tl with
  | nil => exact h
  | cons t1 t2 =>
    show (match aGet q d with
          | some (.vdict inner) => getPath (t1 :: t2) inner
          | _ => none) =
         (match aGet q d' with
          | some (.vdict inner) => getPath (t1 :: t2) inner
          | _ => none)
    rw [h]

/-- Case analysis of `getPath` after a nested assignment with head key
`k`, given the inner assignment's behavior. -/
theorem setPath_cons_cases
    (k : String) (path2 : List String) (hpath2 : path2 ≠ []) (v : Value)
    (d inner0 inner2 : Args)
    (hrel : ∀ tl, tl ≠ [] → getPath (k :: tl) d = getPath tl inner0)
    (hIH : ∀ pre, pre ≠ [] →
      (pre = path2 → getPath pre inner2 = some v) ∧
      (pre ≠ path2 → pre <+: path2 → ∃ inner, getPath pre inner2 = some (.vdict inner)) ∧
      (¬ pre <+: path2 → ¬ path2 <+: pre → getPath pre inner2 = getPath pre inner0) ∧
      (path2 ≠ pre → path2 <+: pre → v.isDict = false → getPath pre inner2 = none)) :
    ∀ pre, pre ≠ [] →
      (pre = k :: path2 → getPath pre (aSet k (.vdict inner2) d) = some v) ∧
      (pre ≠ k :: path2 → pre <+: k :: path2 →
        ∃ inner, getPath pre (aSet k (.vdict inner2) d) = some (.vdict inner)) ∧
      (¬ pre <+: k :: path2 → ¬ (k :: path2) <+: pre →
        getPath pre (aSet k (.vdict inner2) d) = getPath pre d) ∧
      ((k :: path2) ≠ pre → (k :: path2) <+: pre → v.isDict = false →
        getPath pre (aSet k (.vdict inner2) d) = none) := by
  have hkk : aGet k (aSet k (.vdict inner2) d) = some (.vdict inner2) := by
    rw [aGet_aSet]
    simp
  intro pre hpre
  cases pre with
  | nil => exact absurd rfl hpre
  | cons q tl =>
    by_cases hq : q = k
    · subst hq
      cases tl with
      | nil =>
        refine ⟨?_, ?_, ?_, ?_⟩
        · intro he
          injection he with _ h2
          exact absurd h2.symm hpath2
        · intro _ _
          exact ⟨inner2, hkk⟩
        · intro hnp _
          exact absurd (List.cons_prefix_cons.mpr ⟨rfl, List.nil_prefix⟩) hnp
        · intro _ hp _
          exact absurd (List.prefix_nil.mp (List.cons_prefix_cons.mp hp).2) hpath2
      | cons t1 t2 =>
        have htl : (t1 :: t2 : List String) ≠ [] := by simp
        have hstep : getPath (q :: t1 :: t2) (aSet q (.vdict inner2) d) =
            getPath (t1 :: t2) inner2 :=
          getPath_cons q (t1 :: t2) htl _ inner2 hkk
        refine ⟨?_, ?_, ?_, ?_⟩
        · intro he
          injection he with _ h2
          rw [hstep]
          exact (hIH _ htl).1 h2
        · intro hne hp
          have h2 : (t1 :: t2) <+: path2 := (List.cons_prefix_cons.mp hp).2
          have hne2 : (t1 :: t2) ≠ path2 := by
            intro h
            exact hne (by rw [h])
          rw [hstep]
          exact (hIH _ htl).2.1 hne2 h2
        · intro hnp hnp2
          have h2 : ¬ (t1 :: t2) <+: path2 := fun h =>
            hnp (List.cons_prefix_cons.mpr ⟨rfl, h⟩)
          have h3 : ¬ path2 <+: (t1 :: t2) := fun h =>
            hnp2 (List.cons_prefix_cons.mpr ⟨rfl, h⟩)
          rw [hstep, (hIH _ htl).2.2.1 h2 h3, ← hrel _ htl]
        · intro hne hp hv
          have h2 : path2 <+: (t1 :: t2) := (List.cons_prefix_cons.mp hp).2
          have hne2 : path2 ≠ (t1 :: t2) := by
            intro h
            exact hne (by rw [h])
          rw [hstep]
          exact (hIH _ htl).2.2.2 hne2 h2 hv
    · have hget : aGet q (aSet k (.vdict inner2) d) = aGet q d := by
        rw [aGet_aSet, if_neg (fun h => hq h.symm)]
      refine ⟨?_, ?_, ?_, ?_⟩
      · intro he
        injection he with h1 _
        exact absurd h1 hq
      · intro _ hp
        exact absurd (List.cons_prefix_cons.mp hp).1 hq
      · intro _ _
        exact getPath_head_congr q tl _ _ hget
      · intro _ hp _
        exact absurd (List.cons_prefix_cons.mp hp).1 (fun h => hq h.symm)

/-- Reading back after a nested-key assignment: the assigned path holds
the value, its proper prefixes hold dicts, unrelated paths are
untouched, and strict extensions of a scalar assignment read back
absent. -/
theorem getPath_setPath :
    ∀ (path : List String) (v : Value) (d d2 : Args),
      setPath path v d = some d2 →
      ∀ pre, pre ≠ [] →
        (pre = path → getPath pre d2 = some v) ∧
        (pre ≠ path → pre <+: path → ∃ inner, getPath pre d2 = some (.vdict inner)) ∧
        (¬ pre <+: path → ¬ path <+: pre → getPath pre d2 = getPath pre d) ∧
        (path ≠ pre → path <+: pre → v.isDict = false → getPath pre d2 = none) := by
  intro path
  induction path with
  | nil =>
    intro v d d2 hset
    simp [setPath] at hset
  | cons k rest ih =>
    intro v d d2 hset
    cases rest with
    | nil =>
      have hd2 : aSet k v d = d2 := by
        unfold setPath at hset
        exact Option.some.inj hset
      subst hd2
      intro pre hpre
      cases pre with
      | nil => exact absurd rfl hpre
      | cons q tl =>
        by_cases hq : q = k
        · subst hq
          cases tl with
          | nil =>
            refine ⟨?_, ?_, ?_, ?_⟩
            · intro _
              show aGet q (aSet q v d) = some v
              rw [aGet_aSet]
              simp
            · intro hne hp
              exact absurd rfl hne
            · intro hnp _
              exact absurd List.prefix_rfl hnp
            · intro hne _ _
              exact absurd rfl hne
          | cons t1 t2 =>
            refine ⟨?_, ?_, ?_, ?_⟩
            · intro he
              injection he with _ h2
              simp at h2
            · intro _ hp
              have := List.IsPrefix.length_le hp
              simp at this
            · intro _ hnp2
              exact absurd (List.cons_prefix_cons.mpr ⟨rfl, List.nil_prefix⟩) hnp2
            · intro _ _ hv
              show (match aGet q (aSet q v d) with
                    | some (.vdict inner) => getPath (t1 :: t2) inner
                    | _ => none) = none
              rw [aGet_aSet]
              simp only [if_pos rfl]
              cases v with
              | vdict es => exact absurd hv (by simp [Value.isDict])
              | vint n => rfl
              | vbool b => rfl
              | vnone => rfl
              | vstr s => rfl
              | vlist es => rfl
        · have hget : aGet q (aSet k v d) = aGet q d := by
            rw [aGet_aSet, if_neg (fun h => hq h.symm)]
          refine ⟨?_, ?_, ?_, ?_⟩
          · intro he
            injection he with h1 _
            exact absurd h1 hq
          · intro _ hp
            exact absurd (List.cons_prefix_cons.mp hp).1 hq
          · intro _ _
            exact getPath_head_congr q tl _ _ hget
          · intro _ hp _
            exact absurd (List.cons_prefix_cons.mp hp).1 (fun h => hq h.symm)
    | cons k2 ks =>
      unfold setPath at hset
      cases hk : aGet k d with
      | none =>
        rw [hk] at hset
        cases hs : setPath (k2 :: ks) v [] with
        | none =>
          rw [hs] at hset
          simp at hset
        | some inner2 =>
          rw [hs] at hset
          have hd2 : aSet k (.vdict inner2) d = d2 := by
            simpa using hset
          subst hd2
          refine setPath_cons_cases k (k2 :: ks) (by simp) v d [] inner2 ?_
            (ih v [] inner2 hs)
          intro tl htl
          rw [getPath_nil_dict tl]
          cases tl with
          | nil => exact absurd rfl htl
          | cons t1 t2 =>
            show (match aGet k d with
                  | some (.vdict inner) => getPath (t1 :: t2) inner
                  | _ => none) = none
            rw [hk]
      | some val =>
        cases val with
        | vdict inner =>
          rw [hk] at hset; dsimp only at hset
          cases hs : setPath (k2 :: ks) v inner with
          | none =>
            rw [hs] at hset
            simp at hset
          | some inner2 =>
            rw [hs] at hset
            have hd2 : aSet k (.vdict inner2) d = d2 := by
              simpa using hset
            subst hd2
            refine setPath_cons_cases k (k2 :: ks) (by simp) v d inner inner2 ?_
              (ih v inner inner2 hs)
            intro tl htl
            exact getPath_cons k tl htl d inner hk
        | vint n => rw [hk] at hset; simp at hset
        | vbool b => rw [hk] at hset; simp at hset
        | vnone => rw [hk] at hset; simp at hset
        | vstr s => rw [hk] at hset; simp at hset
        | vlist es => rw [hk] at hset; simp at hset

/-- Invariant of the argument dictionary built by the parameter-segment
fold over (key path, decoded value) pairs: strict prefixes of processed
key paths hold dicts, each processed key path holds a non-dict value
that is among the values assigned to it, and everything else is
absent. -/
def pathInv (processed : List (List String × Value)) (d : Args) : Prop :=
  (∀ pre, pre ≠ [] → (∃ pr ∈ processed, pre <+: pr.1 ∧ pre ≠ pr.1) →
    ∃ inner, getPath pre d = some (.vdict inner)) ∧
  (∀ pr ∈ processed, ∃ w, getPath pr.1 d = some w ∧ w.isDict = false ∧
    (pr.1, w) ∈ processed) ∧
  (∀ pre, pre ≠ [] → (∀ pr ∈ processed, ¬ pre <+: pr.1) → getPath pre d = none)

/-- The empty dictionary satisfies the fold invariant. -/
theorem pathInv_nil : pathInv [] [] := by
  refine ⟨?_, ?_, ?_⟩
  · intro pre _ hex
    obtain ⟨pr, hp, _⟩ := hex
    simp at hp
  · intro pr hp
    simp at hp
  · intro pre _ _
    exact getPath_nil_dict pre

/-- Under the fold invariant, the `setdefault` walk for a key path that
no processed path strictly prefixes always succeeds. -/
theorem setPath_scalar_ok (q : List String) (v : Value) (d : Args)
    (processed : List (List String × Value)) (hq : q ≠ [])
    (hInv : pathInv processed d)
    (hcomp : ∀ pr ∈ processed, pr.1 <+: q → pr.1 = q) :
    (setPath q v d).isSome = true := by
  apply setPath_isSome q v d hq
  intro pre hpre hp hne
  by_cases h1 : ∃ pr ∈ processed, pre <+: pr.1 ∧ pre ≠ pr.1
  · obtain ⟨inner, hin⟩ := hInv.1 pre hpre h1
    rw [hin]
    exact rfl
  · push_neg at h1
    have h3 : ∀ pr ∈ processed, ¬ pre <+: pr.1 := by
      intro pr hpmem hpp
      have he : pre = pr.1 := h1 pr hpmem hpp
      exact hne (he.trans (hcomp pr hpmem (he ▸ hp)))
    rw [hInv.2.2 pre hpre h3]
    trivial

/-- A non-dict assignment at a key path incomparable (except for
equality) with every processed path extends the fold invariant. -/
theorem pathInv_step (q : List String) (v : Value) (d d2 : Args)
    (processed : List (List String × Value)) (hq : q ≠ []) (hv : v.isDict = false)
    (hcomp : ∀ pr ∈ processed, (pr.1 <+: q → pr.1 = q) ∧ (q <+: pr.1 → q = pr.1))
    (hset : setPath q v d = some d2)
    (hInv : pathInv processed d) :
    pathInv (processed ++ [(q, v)]) d2 := by
  have H := getPath_setPath q v d d2 hset
  refine ⟨?_, ?_, ?_⟩
  · intro pre hpre hex
    obtain ⟨pr, hpm, hpp, hne⟩ := hex
    rcases List.mem_append.mp hpm with hpm2 | hpm2
    · by_cases hpq : pre <+: q
      · by_cases heq : pre = q
        · have hqp2 : q = pr.1 := (hcomp pr hpm2).2 (heq ▸ hpp)
          exact absurd (heq.trans hqp2) hne
        · exact (H pre hpre).2.1 heq hpq
      · by_cases hqp : q <+: pre
        · have heqp : q = pr.1 := (hcomp pr hpm2).2 (hqp.trans hpp)
          exact absurd (by rw [heqp]; exact hpp) hpq
        · rw [(H pre hpre).2.2.1 hpq hqp]
          exact hInv.1 pre hpre ⟨pr, hpm2, hpp, hne⟩
    · have hpq2 : pr = (q, v) := List.mem_singleton.mp hpm2
      have hq1 : pr.1 = q := by rw [hpq2]
      exact (H pre hpre).2.1 (fun h => hne (h.trans hq1.symm)) (by rw [← hq1]; exact hpp)
  · intro pr hpm
    rcases List.mem_append.mp hpm with hpm2 | hpm2
    · have hpne : pr.1 ≠ [] := by
        intro h
        obtain ⟨w0, hw0, _⟩ := hInv.2.1 pr hpm2
        rw [h, show getPath ([] : List String) d = none from rfl] at hw0
        cases hw0
      by_cases heq : pr.1 = q
      · exact ⟨v, (H pr.1 hpne).1 heq, hv,
          List.mem_append.mpr (Or.inr (List.mem_singleton.mpr (by rw [heq])))⟩
      · have h1 : ¬ pr.1 <+: q := fun h => heq ((hcomp pr hpm2).1 h)
        have h2 : ¬ q <+: pr.1 := fun h => heq (((hcomp pr hpm2).2 h).symm)
        rw [(H pr.1 hpne).2.2.1 h1 h2]
        obtain ⟨w, hw, hwd, hwm⟩ := hInv.2.1 pr hpm2
        exact ⟨w, hw, hwd, List.mem_append.mpr (Or.inl hwm)⟩
    · have hpq2 : pr = (q, v) := List.mem_singleton.mp hpm2
      have hq1 : pr.1 = q := by rw [hpq2]
      have hpne : pr.1 ≠ [] := by
        rw [hq1]
        exact hq
      exact ⟨v, (H pr.1 hpne).1 hq1, hv,
        List.mem_append.mpr (Or.inr (List.mem_singleton.mpr (by rw [hq1])))⟩
  · intro pre hpre hall
    have hnq : ¬ pre <+: q :=
      hall (q, v) (List.mem_append.mpr (Or.inr (List.mem_singleton.mpr rfl)))
    by_cases hqp : q <+: pre
    · refine (H pre hpre).2.2.2 ?_ hqp hv
      intro h
      rw [← h] at hnq
      exact hnq List.prefix_rfl
    · rw [(H pre hpre).2.2.1 hnq hqp]
      exact hInv.2.2 pre hpre (fun pr hp => hall pr (List.mem_append.mpr (Or.inl hp)))

/-- When the quote-aware scan finds a separator, the segment contains an
equality sign. -/
theorem findEqAux_mem :
    ∀ (l : List Char) (i : Nat) (prev qc : Option Char) (j : Nat),
      findEqAux l i prev qc = some j → '=' ∈ l := by
  intro l
  induction l with
  | nil =>
    intro i prev qc j h
    simp [findEqAux] at h
  | cons c rest ih =>
    intro i prev qc j h
    unfold findEqAux at h
    split at h
    · split at h
      · exact List.mem_cons_of_mem c (ih _ _ _ _ h)
      · split at h
        · exact List.mem_cons_of_mem c (ih _ _ _ _ h)
        · exact List.mem_cons_of_mem c (ih _ _ _ _ h)
    · split at h
      · next hcond =>
        rw [hcond.1]
        exact List.mem_cons_self _ _
      · exact List.mem_cons_of_mem c (ih _ _ _ _ h)

/-- A segment with an unquoted separator passes the membership guard
that `parse_function_call` checks first. -/
theorem findEqPos_contains (part : String) (h : (findEqPos part).isSome = true) :
    containsSub "=" part = true := by
  obtain ⟨j, hj⟩ := Option.isSome_iff_exists.mp h
  have hm : '=' ∈ part.data := findEqAux_mem part.data 0 none none j hj
  unfold containsSub
  apply hasInfix_iff.mpr
  obtain ⟨s, t, hst⟩ := List.append_of_mem hm
  refine ⟨s, t, ?_⟩
  rw [hst, List.append_assoc, show ("=" : String).data = ['='] from rfl]
  rfl

/-- The parameter-segment fold fails whenever some segment has no
unquoted separator. -/
theorem buildArgs_err (part : String) (hf : findEqPos part = none) :
    ∀ (parts : List String) (args : Args), part ∈ parts →
      (buildArgs parts args).isOk = false := by
  intro parts
  induction parts with
  | nil =>
    intro args h
    simp at h
  | cons p rest ih =>
    intro args hmem
    rcases List.mem_cons.mp hmem with he | hm2
    · subst he
      unfold buildArgs
      split
      · rfl
      · rw [hf]
        rfl
    · unfold buildArgs
      split
      · rfl
      · split
        · rfl
        · dsimp only
          split
          · rfl
          · exact ih _ hm2

/-- The parameter-segment fold succeeds when every segment has an
unquoted separator, every decoded value is a non-dict, and no key path
strictly prefixes another; its result satisfies the fold invariant. -/
theorem buildArgs_ok :
    ∀ (parts : List String) (args : Args) (processed : List (List String × Value)),
      (∀ part ∈ parts, (findEqPos part).isSome = true) →
      (∀ part ∈ parts, (parseValue (segVal part)).isDict = false) →
      (∀ pr, (pr ∈ processed ∨ pr ∈ parts.map segPV) →
        ∀ sr, (sr ∈ processed ∨ sr ∈ parts.map segPV) → pr.1 <+: sr.1 → pr.1 = sr.1) →
      pathInv processed args →
      ∃ args2, buildArgs parts args = .ok args2 ∧
        pathInv (processed ++ parts.map segPV) args2 := by
  intro parts
  induction parts with
  | nil =>
    intro args processed _ _ _ hInv
    exact ⟨args, rfl, by simpa using hInv⟩
  | cons part rest ih =>
    intro args processed hfind hscal hNPE hInv
    have hf : (findEqPos part).isSome = true := hfind part (List.mem_cons_self part rest)
    obtain ⟨i, hi⟩ := Option.isSome_iff_exists.mp hf
    have hcs : containsSub "=" part = true := findEqPos_contains part hf
    have hqne : segPath part ≠ [] := segPath_ne_nil part
    have hmemq : segPV part ∈ (part :: rest).map segPV := by
      rw [List.map_cons]
      exact List.mem_cons_self _ _
    have hcomp : ∀ pr ∈ processed, (pr.1 <+: segPath part → pr.1 = segPath part) ∧
        (segPath part <+: pr.1 → segPath part = pr.1) := by
      intro pr hp
      exact ⟨fun h => hNPE pr (Or.inl hp) (segPV part) (Or.inr hmemq) h,
             fun h => hNPE (segPV part) (Or.inr hmemq) pr (Or.inl hp) h⟩
    have hvd : (parseValue (segVal part)).isDict = false :=
      hscal part (List.mem_cons_self part rest)
    have hsome : (setPath (segPath part) (parseValue (segVal part)) args).isSome = true :=
      setPath_scalar_ok (segPath part) _ args processed hqne hInv
        (fun pr hp h => (hcomp pr hp).1 h)
    obtain ⟨args1, hset⟩ := Option.isSome_iff_exists.mp hsome
    have hInv1 : pathInv (processed ++ [segPV part]) args1 :=
      pathInv_step (segPath part) _ args args1 processed hqne hvd hcomp hset hInv
    have hkey : pySplit '.' (pyStrip (String.mk (part.data.take i))) = segPath part := by
      unfold segPath segKey
      rw [hi]
    have hval : pyStrip (String.mk (part.data.drop (i + 1))) = segVal part := by
      unfold segVal
      rw [hi]
    have hconv : ∀ sr, (sr ∈ processed ++ [segPV part] ∨ sr ∈ rest.map segPV) →
        (sr ∈ processed ∨ sr ∈ (part :: rest).map segPV) := by
      intro sr hs
      rcases hs with hs | hs
      · rcases List.mem_append.mp hs with h | h
        · exact Or.inl h
        · rw [List.mem_singleton.mp h]
          exact Or.inr hmemq
      · right
        rw [List.map_cons]
        exact List.mem_cons_of_mem _ hs
    obtain ⟨args2, hbuild, hInv2⟩ := ih args1 (processed ++ [segPV part])
      (fun p hp => hfind p (List.mem_cons_of_mem part hp))
      (fun p hp => hscal p (List.mem_cons_of_mem part hp))
      (fun pr hp sr hs hps => hNPE pr (hconv pr hp) sr (hconv sr hs) hps)
      hInv1
    refine ⟨args2, ?_, ?_⟩
    · unfold buildArgs
      rw [if_neg (not_not_intro hcs), hi]
      dsimp only
      rw [hkey, hval, hset]
      exact hbuild
    · have hl : processed ++ [segPV part] ++ rest.map segPV
          = processed ++ (part :: rest).map segPV := by
        rw [List.map_cons, List.append_assoc]
        rfl
      rw [← hl]
      exact hInv2

/-- C6 (amended): `parse_function_call` raises the marker / separator
parse errors exactly as claimed, but success needs structural side
conditions.  (1) A line without the marker raises the format parse
error.  (2) A marker line with a segment lacking an unquoted separator
fails.  (3) A marker line in which every segment has an unquoted
separator parses successfully provided additionally that every
composite-opening value stays inside the embedded literal subgrammar,
no decoded value is a dict, no segment's dotted key path strictly
prefixes another's (otherwise the `setdefault` walk hits the value
already assigned there and raises, see the counterexample), and, for
the tool `add_data_to_sheet`, no segment assigns to the bare key
`input` (the debug block's `args["input"].get` would raise) and any
value assigned at `input.data` tolerates the debug block's first-row
preview (`len(data[0])` / `data[0][:3]` raise on unsized or oversized
first rows); values may contain `=`. -/
theorem C6_parse_amended :
    (∀ line, pyStartsWith line "FUNCTION_CALL:" = false →
      parse_function_call line = .error "Invalid function call format.") ∧
    (∀ line part, pyStartsWith line "FUNCTION_CALL:" = true →
      part ∈ parseSegments line → findEqPos part = none →
      (parse_function_call line).isOk = false) ∧
    (∀ line, pyStartsWith line "FUNCTION_CALL:" = true →
      (∀ part ∈ parseSegments line, (findEqPos part).isSome = true) →
      (∀ part ∈ parseSegments line, litOk (segVal part) = true) →
      (∀ part ∈ parseSegments line, (parseValue (segVal part)).isDict = false) →
      (∀ p ∈ parseSegments line, ∀ r ∈ parseSegments line,
        segPath p <+: segPath r → segPath p = segPath r) →
      (parseToolName line = "add_data_to_sheet" →
        ∀ p ∈ parseSegments line, segPath p ≠ ["input"] ∧
          (segPath p = ["input", "data"] → dataSafe (parseValue (segVal p)) = true)) →
      (parse_function_call line).isOk = true) := by
  refine ⟨?_, ?_, ?_⟩
  · intro line h
    unfold parse_function_call
    rw [if_pos (by simp [h])]
  · intro line part hmark hmem hnone
    unfold parse_function_call
    rw [if_neg (not_not_intro hmark)]
    dsimp only
    have hb := buildArgs_err part hnone (parseSegments line) [] hmem
    unfold parseSegments at hb
    cases hbe : buildArgs (((pySplit '|' (String.mk (line.data.drop 14))).map pyStrip).tail) [] with
    | error e => rfl
    | ok args =>
      rw [hbe] at hb
      exact absurd hb (by simp [Except.isOk, Except.toBool])
  · intro line hmark hfind hlit hscal hNPE hdata
    unfold parse_function_call
    rw [if_neg (not_not_intro hmark)]
    dsimp only
    obtain ⟨args2, hbe, hInv2⟩ := buildArgs_ok (parseSegments line) [] []
      hfind hscal
      (by
        intro pr hp sr hs hps
        rcases hp with hp | hp
        · simp at hp
        rcases hs with hs | hs
        · simp at hs
        obtain ⟨a, ha, rfl⟩ := List.mem_map.mp hp
        obtain ⟨b, hbm, rfl⟩ := List.mem_map.mp hs
        exact hNPE a ha b hbm hps)
      pathInv_nil
    have hbe2 := hbe
    unfold parseSegments at hbe2
    rw [hbe2]
    dsimp only
    split
    · next htool =>
      by_cases h1 : ∃ pr ∈ ([] : List (List String × Value)) ++
          List.map segPV (parseSegments line),
          (["input"] : List String) <+: pr.1 ∧ (["input"] : List String) ≠ pr.1
      · obtain ⟨inner, hin⟩ := hInv2.1 ["input"] (by simp) h1
        have hag : aGet "input" args2 = some (Value.vdict inner) := hin
        have hgetd : getPath ["input", "data"] args2 = aGet "data" inner := by
          show (match aGet "input" args2 with
                | some (.vdict inner) => getPath ["data"] inner
                | _ => none) = aGet "data" inner
          rw [hag]
          rfl
        rw [hag]
        dsimp only
        cases hd : aGet "data" inner with
        | none => rfl
        | some w =>
          dsimp only
          have hw : getPath ["input", "data"] args2 = some w := hgetd.trans hd
          by_cases h2 : ∃ pr ∈ ([] : List (List String × Value)) ++
              List.map segPV (parseSegments line), pr.1 = (["input", "data"] : List String)
          · obtain ⟨pr, hprm, hpr1⟩ := h2
            obtain ⟨w2, hw2, hw2d, hw2m⟩ := hInv2.2.1 pr hprm
            rw [hpr1] at hw2
            have hww : w = w2 := Option.some.inj (hw.symm.trans hw2)
            have hw2m2 : (pr.1, w2) ∈ List.map segPV (parseSegments line) := by
              simpa using hw2m
            obtain ⟨b, hbm, hbe3⟩ := List.mem_map.mp hw2m2
            have hb1 : segPath b = ["input", "data"] := by
              calc segPath b = (segPV b).1 := rfl
                _ = pr.1 := by rw [hbe3]
                _ = _ := hpr1
            have hb2 : parseValue (segVal b) = w2 := by
              have h5 : (segPV b).2 = w2 := by rw [hbe3]
              exact h5
            have hds := (hdata htool b hbm).2 hb1
            rw [hb2] at hds
            rw [hww, if_pos hds]
            rfl
          · by_cases h3 : ∃ pr ∈ ([] : List (List String × Value)) ++
                List.map segPV (parseSegments line),
                (["input", "data"] : List String) <+: pr.1 ∧
                (["input", "data"] : List String) ≠ pr.1
            · obtain ⟨inner2, hin2⟩ := hInv2.1 ["input", "data"] (by simp) h3
              have hwd : w = Value.vdict inner2 := Option.some.inj (hw.symm.trans hin2)
              rw [hwd]
              rfl
            · have hall : ∀ pr ∈ ([] : List (List String × Value)) ++
                  List.map segPV (parseSegments line),
                  ¬ (["input", "data"] : List String) <+: pr.1 := by
                intro pr hprm hpp
                by_cases he : (["input", "data"] : List String) = pr.1
                · exact h2 ⟨pr, hprm, he.symm⟩
                · exact h3 ⟨pr, hprm, hpp, he⟩
              have habs := hInv2.2.2 ["input", "data"] (by simp) hall
              rw [hw] at habs
              cases habs
      · have h3 : ∀ pr ∈ ([] : List (List String × Value)) ++
            List.map segPV (parseSegments line),
            ¬ (["input"] : List String) <+: pr.1 := by
          intro pr hp hpp
          have hp2 : pr ∈ List.map segPV (parseSegments line) := by simpa using hp
          by_cases he : (["input"] : List String) = pr.1
          · obtain ⟨a, ha, rfl⟩ := List.mem_map.mp hp2
            exact (hdata htool a ha).1 he.symm
          · exact h1 ⟨pr, by simpa using hp2, hpp, he⟩
        have hnone := hInv2.2.2 ["input"] (by simp) h3
        have hag : aGet "input" args2 = none := hnone
        rw [hag]
        rfl
    · rfl

/-- C6 witness: the amended theorem at concrete lines — a marker-less
line, a marker line with a separator-less segment, and an
add_data_to_sheet line whose data value is a genuine nested list
literal. -/
theorem C6_witness :
    parse_function_call "hello" = .error "Invalid function call format." ∧
    (parse_function_call "FUNCTION_CALL: t|abc").isOk = false ∧
    (parse_function_call
      "FUNCTION_CALL: add_data_to_sheet|input.sheet_id=\"S1\"|input.data=[[\"a\",\"b\"],[\"c\",\"d\"]]").isOk
      = true :=
  ⟨C6_parse_amended.1 "hello" (by decide),
   C6_parse_amended.2.1 "FUNCTION_CALL: t|abc" "abc" (by decide) (by decide) (by decide),
   C6_parse_amended.2.2
     "FUNCTION_CALL: add_data_to_sheet|input.sheet_id=\"S1\"|input.data=[[\"a\",\"b\"],[\"c\",\"d\"]]"
     (by decide) (by decide) (by decide) (by decide) (by decide) (by decide)⟩
